import Mathlib

/-!
Shallow embedding of the Forex Trading Assistant server (`src/server/main.py`)
over a relational store model, with proofs and refutations of the
specification claims.

Conventions used throughout:
* Python floats are modelled as rationals.  Two-decimal formatting rounds
  ties half away from zero where Python's binary floats would round the
  nearest representable value half to even; no claim depends on a tie.
* SQLite tables are lists of structures kept in insertion (rowid) order.
* Python truthiness of a numeric value (`if x:`) is `x ≠ 0`, with `None`
  falsy; truthiness of a string is non-emptiness.
* sqlite3 checks parameter bindings: executing a statement whose
  placeholder count differs from the number of supplied parameters raises
  `ProgrammingError`; this is modelled as `SqlError.bindingMismatch`.
* Each `conn.commit()` in the source produces one entry of an explicit
  commit trace, so that intermediate committed states are observable.
-/

namespace ForexAssistant

section
attribute [local semireducible] Rat.add Rat.mul Rat.inv Rat.sub Rat.ofScientific

/-- Trade side, `trade_type` in the source. -/
inductive TradeType
  | BUY
  | SELL
deriving DecidableEq, Repr

/-- Outcome of a closed trade, `result` in the source. -/
inductive Outcome
  | WIN
  | LOSS
deriving DecidableEq, Repr

/-- Trade status; the source stores the strings OPEN and CLOSED. -/
inductive Status
  | OPEN
  | CLOSED
deriving DecidableEq, Repr

/-- Python truthiness of an optional float: `None` and `0.0` are falsy. -/
def truthyOpt : Option ℚ → Bool
  | none => false
  | some x => x != 0

/-- Python truthiness of a float. -/
def truthyQ (x : ℚ) : Bool := x != 0

/-- Python truthiness of an optional string: `None` and the empty string are falsy. -/
def truthyStr : Option String → Bool
  | none => false
  | some v => v != ""

/-- Row of the `trade_tracker` table. -/
structure Trade where
  id : Nat
  userId : String
  entryPrice : ℚ
  takeProfit : Option ℚ
  stopLoss : Option ℚ
  lotSize : ℚ
  balance : ℚ
  tradeType : TradeType
  currencyPair : String
  timeframe : Option String
  tradeStyle : Option String
  strategy : Option String
  riskReward : Option String
  notes : Option String
  createdAt : ℚ
  status : Status
deriving DecidableEq, Repr

/-- Row of the `trade_results` table. -/
structure ResultRow where
  id : Nat
  userId : String
  tradeId : Nat
  result : Outcome
  profitLoss : ℚ
  notes : Option String
  closedAt : ℚ
deriving DecidableEq, Repr

/-- Row of the `risk_monitor` table. -/
structure AlertRow where
  userId : String
  alertType : String
  riskLevel : String
  acknowledged : Bool
deriving DecidableEq, Repr

/-- Row of the `users` table; only the columns the server writes. -/
structure UserRow where
  userId : String
  username : String
deriving DecidableEq, Repr

/-- The relational store the four operations read and write.  `nextTradeId`
and `nextResultId` model sqlite's monotone `lastrowid` assignment. -/
structure Store where
  users : List UserRow
  trades : List Trade
  results : List ResultRow
  alerts : List AlertRow
  nextTradeId : Nat
  nextResultId : Nat
deriving DecidableEq, Repr

/-- The freshly initialised store; sqlite rowids start at 1. -/
def store0 : Store := ⟨[], [], [], [], 1, 1⟩

/-- Two-decimal rendering of a nonnegative rational, as in Python's
format specifier `.2f` (ties here round half up, see the file comment).
`Rat.floor` is used rather than `⌊⌋` so that the kernel can evaluate it. -/
def formatHundredths (q : ℚ) : String :=
  let n : ℤ := (q * 100 + 1 / 2).floor
  toString (n / 100) ++ "." ++ (if n % 100 < 10 then "0" else "") ++ toString (n % 100)

/-- Stored risk:reward string, the Python expression `f"1:{r:.2f}"`. -/
def formatRR (q : ℚ) : String := "1:" ++ formatHundredths q

/-- Risk:reward derivation of `save_trade` (main.py lines 81-93).  The guard
is Python truthiness, so a price equal to 0, like an absent price, skips the
whole computation. -/
def computeRR (entry : ℚ) (tp sl : Option ℚ) (side : TradeType) : Option String :=
  if truthyOpt tp && truthyOpt sl && truthyQ entry then
    let t := tp.getD 0
    let s := sl.getD 0
    let pd := match side with
      | .BUY => |t - entry|
      | .SELL => |entry - t|
    let rd := match side with
      | .BUY => |entry - s|
      | .SELL => |s - entry|
    if rd > 0 then some (formatRR (pd / rd)) else none
  else none

/-- Modelled from the spec: the `users` table schema lives in `schema.sql`,
which is not part of the sources; per the spec a user row is created
implicitly, idempotently, on first use (`INSERT OR IGNORE` in main.py
lines 96-99). -/
def ensureUser (s : Store) (u : String) : Store :=
  if s.users.any (fun x => x.userId == u) then s
  else { s with users := s.users ++ [⟨u, u⟩] }

/-- Successful payload of `save_trade` (the returned dict minus its purely
textual `message` field, which is determined by `tradeId`). -/
structure SaveTradeOk where
  tradeId : Nat
  status : Status
  entryPrice : ℚ
  takeProfit : Option ℚ
  stopLoss : Option ℚ
  lotSize : ℚ
  balance : ℚ
  tradeType : TradeType
  currencyPair : String
  timeframe : Option String
  tradeStyle : Option String
  strategy : Option String
  riskReward : Option String
  potentialProfit : Option ℚ
  potentialLoss : Option ℚ
  notes : Option String
deriving DecidableEq, Repr

/-- Result of `save_trade`: the success dict or the validation-error dict
carrying the offending lot size (main.py lines 73-77). -/
inductive SaveOutput
  | ok (r : SaveTradeOk)
  | invalidLotSize (provided : ℚ)
deriving DecidableEq, Repr

/-- Risk:reward string of a save payload, `none` on the error payload. -/
def SaveOutput.rrOf : SaveOutput → Option String
  | .ok r => r.riskReward
  | .invalidLotSize _ => none

/-- Potential profit of a save payload, `none` on the error payload. -/
def SaveOutput.potProfitOf : SaveOutput → Option ℚ
  | .ok r => r.potentialProfit
  | .invalidLotSize _ => none

/-- Potential loss of a save payload, `none` on the error payload. -/
def SaveOutput.potLossOf : SaveOutput → Option ℚ
  | .ok r => r.potentialLoss
  | .invalidLotSize _ => none

/-- `save_trade` (main.py lines 30-140).  `now` is the store clock used for
the row's default timestamp. -/
def saveTrade (s : Store) (now : ℚ) (userId : String) (entry : ℚ)
    (tp sl : Option ℚ) (lot bal : ℚ) (side : TradeType) (pair : String)
    (timeframe tradeStyle strategy notes : Option String) :
    SaveOutput × Store :=
  if lot ≤ 0 then (.invalidLotSize lot, s)
  else
    let rr := computeRR entry tp sl side
    let s1 := ensureUser s userId
    let tid := s1.nextTradeId
    let tr : Trade :=
      { id := tid, userId, entryPrice := entry, takeProfit := tp, stopLoss := sl,
        lotSize := lot, balance := bal, tradeType := side, currencyPair := pair,
        timeframe, tradeStyle, strategy, riskReward := rr, notes,
        createdAt := now, status := .OPEN }
    let s2 := { s1 with trades := s1.trades ++ [tr], nextTradeId := tid + 1 }
    let pp := if truthyOpt tp && truthyQ entry then
        some (|tp.getD 0 - entry| * (lot * 100)) else none
    let pl := if truthyOpt sl && truthyQ entry then
        some (|entry - sl.getD 0| * (lot * 100)) else none
    (.ok { tradeId := tid, status := .OPEN, entryPrice := entry, takeProfit := tp,
           stopLoss := sl, lotSize := lot, balance := bal, tradeType := side,
           currencyPair := pair, timeframe, tradeStyle, strategy, riskReward := rr,
           potentialProfit := pp, potentialLoss := pl, notes }, s2)

/-- Successful payload of `log_trade_result` (the returned dict minus the
purely textual `message` field, which is determined by the other fields). -/
structure LogResultOk where
  resultId : Nat
  tradeId : Nat
  result : Outcome
  profitLoss : ℚ
  previousBalance : ℚ
  newBalance : ℚ
  entryPrice : ℚ
  exitPrice : ℚ
  lotSize : ℚ
  status : Status
  notes : Option String
deriving DecidableEq, Repr

/-- Result of `log_trade_result`: the success dict or one of the three
structured error/warning dicts of main.py lines 180-226. -/
inductive LogOutput
  | notFound (tradeId : Nat)
  | alreadyClosed (tradeId : Nat)
  | noTakeProfit (tradeId : Nat)
  | noStopLoss (tradeId : Nat)
  | ok (r : LogResultOk)
deriving DecidableEq, Repr

/-- Whether a `log_trade_result` payload is the success dict. -/
def LogOutput.isOk : LogOutput → Bool
  | .ok _ => true
  | _ => false

/-- Profit/loss of a close payload, 0 on the error payloads. -/
def LogOutput.plOf : LogOutput → ℚ
  | .ok r => r.profitLoss
  | _ => 0

/-- New balance of a close payload, 0 on the error payloads. -/
def LogOutput.newBalanceOf : LogOutput → ℚ
  | .ok r => r.newBalance
  | _ => 0

/-- The row lookup of main.py lines 172-179:
`SELECT ... FROM trade_tracker WHERE id = ? AND user_id = ?`, `fetchone`. -/
def findTrade (s : Store) (tid : Nat) (u : String) : Option Trade :=
  s.trades.find? (fun t => t.id == tid && t.userId == u)

/-- The status update of main.py lines 243-246:
`UPDATE trade_tracker SET status = CLOSED WHERE id = ?`. -/
def markClosed (trades : List Trade) (tid : Nat) : List Trade :=
  trades.map (fun t => if t.id == tid then { t with status := Status.CLOSED } else t)

/-- Rows of `trade_results` referencing trade `tid`. -/
def resultsFor (s : Store) (tid : Nat) : List ResultRow :=
  s.results.filter (fun r => r.tradeId == tid)

/-- `log_trade_result` (main.py lines 143-262).  Besides the payload and the
final store it returns the commit trace: one store per `conn.commit()` in the
source.  The first commit (line 236) persists the Result while the Trade is
still OPEN; only the second commit (line 247) closes the Trade. -/
def logTradeResult (s : Store) (now : ℚ) (userId : String) (tradeId : Nat)
    (result : Outcome) (notes : Option String) : LogOutput × Store × List Store :=
  match findTrade s tradeId userId with
  | none => (.notFound tradeId, s, [])
  | some t =>
    if t.status = Status.CLOSED then (.alreadyClosed tradeId, s, [])
    else
      let commitBoth : ℚ → ℚ → LogOutput × Store × List Store := fun pl exitPrice =>
        let rid := s.nextResultId
        let row : ResultRow :=
          { id := rid, userId, tradeId, result, profitLoss := pl, notes, closedAt := now }
        let s1 := { s with results := s.results ++ [row], nextResultId := rid + 1 }
        let s2 := { s1 with trades := markClosed s1.trades tradeId }
        (.ok { resultId := rid, tradeId, result, profitLoss := pl,
               previousBalance := t.balance, newBalance := t.balance + pl,
               entryPrice := t.entryPrice, exitPrice, lotSize := t.lotSize,
               status := Status.CLOSED, notes }, s2, [s1, s2])
      match result with
      | .WIN =>
        if truthyOpt t.takeProfit then
          let tp := t.takeProfit.getD 0
          let move := match t.tradeType with
            | .BUY => tp - t.entryPrice
            | .SELL => t.entryPrice - tp
          commitBoth (move * (t.lotSize * 100)) tp
        else (.noTakeProfit tradeId, s, [])
      | .LOSS =>
        if truthyOpt t.stopLoss then
          let sl := t.stopLoss.getD 0
          let move := match t.tradeType with
            | .BUY => t.entryPrice - sl
            | .SELL => sl - t.entryPrice
          commitBoth (-|move * (t.lotSize * 100)|) sl
        else (.noStopLoss tradeId, s, [])

/-! ## Embedding of `get_trade_insights` (main.py lines 265-550) -/

/-- Failures the SQL/Python layer can raise during a read operation:
`bindingMismatch` is sqlite3's ProgrammingError for a statement whose
placeholder count differs from the supplied parameter count; `typeError`
is Python's TypeError (raised by `abs(None / x)`). -/
inductive SqlError
  | bindingMismatch (placeholders supplied : Nat)
  | typeError
deriving DecidableEq, Repr

instance {ε α : Type} [DecidableEq ε] [DecidableEq α] : DecidableEq (Except ε α) :=
  fun x y =>
    match x, y with
    | .ok a, .ok b =>
      if h : a = b then isTrue (by rw [h]) else isFalse (fun hc => h (Except.ok.inj hc))
    | .error e1, .error e2 =>
      if h : e1 = e2 then isTrue (by rw [h]) else isFalse (fun hc => h (Except.error.inj hc))
    | .ok _, .error _ => isFalse (fun hc => Except.noConfusion hc)
    | .error _, .ok _ => isFalse (fun hc => Except.noConfusion hc)

/-- Binding-checked query execution: sqlite3 refuses to run a statement
unless exactly as many parameters as placeholders are supplied. -/
def execQ (ph : Nat) (args : List String) (rows : α) : Except SqlError α :=
  if args.length = ph then .ok rows else .error (.bindingMismatch ph args.length)

/-- The three optional filter arguments of `get_trade_insights`. -/
structure Filters where
  currencyPair : Option String
  timeframe : Option String
  strategy : Option String
deriving DecidableEq, Repr

/-- No filters supplied. -/
def noFilters : Filters := ⟨none, none, none⟩

/-- The (column, value) filter pairs assembled in main.py lines 297-310;
a falsy (absent or empty) argument contributes nothing. -/
def buildFilters (f : Filters) : List (String × String) :=
  (if truthyStr f.currencyPair then [(("currency_pair"), f.currencyPair.getD (""))] else []) ++
  (if truthyStr f.timeframe then [(("timeframe"), f.timeframe.getD (""))] else []) ++
  (if truthyStr f.strategy then [(("strategy"), f.strategy.getD (""))] else [])

/-- The parameter values bound for the filter pairs. -/
def filterParams (fs : List (String × String)) : List String := fs.map (fun p => p.2)

/-- SQL equality of one filter column against a trade row (a NULL column
never matches). -/
def matchesOne (t : Trade) : String × String → Bool
  | (c, v) =>
    if c == "currency_pair" then t.currencyPair == v
    else if c == "timeframe" then t.timeframe == some v
    else t.strategy == some v

/-- Conjunction of all filter predicates. -/
def matchesFilters (t : Trade) (fs : List (String × String)) : Bool :=
  fs.all (matchesOne t)

/-- SQL SUM over naturals: NULL (`none`) on the empty set. -/
def sqlSumNat (l : List Nat) : Option Nat := if l.isEmpty then none else some l.sum

/-- SQL AVG: NULL on the empty set. -/
def sqlAvg (l : List ℚ) : Option ℚ := if l.isEmpty then none else some (l.sum / l.length)

/-- Python's `round(x, 2)` on our rationals (ties round half up, see the
file comment). -/
def round2 (q : ℚ) : ℚ := (((q * 100 + 1 / 2).floor : ℤ) : ℚ) / 100

/-- Row of the status-count query (main.py lines 313-325).  `COUNT(*)` is
never NULL but the two `SUM(CASE ...)` columns are NULL when no row
matches; the source's `counts or (0, 0, 0)` never fires because a non-empty
tuple is truthy. -/
structure CountsRow where
  totalTrades : Nat
  openTrades : Option Nat
  closedTrades : Option Nat
deriving DecidableEq, Repr

/-- Status counts over the filtered trades of all users. -/
def countsBlock (rows : List Trade) : CountsRow :=
  { totalTrades := rows.length,
    openTrades := sqlSumNat (rows.map (fun t => if t.status = Status.OPEN then 1 else 0)),
    closedTrades := sqlSumNat (rows.map (fun t => if t.status = Status.CLOSED then 1 else 0)) }

/-- `FROM trade_tracker tt INNER JOIN trade_results tr ON tt.id = tr.trade_id`
restricted by a row predicate on the trade side. -/
def joinWhere (s : Store) (p : Trade → Bool) : List (Trade × ResultRow) :=
  (s.trades.filter p).flatMap
    (fun t => (s.results.filter (fun r => r.tradeId == t.id)).map (fun r => (t, r)))

/-- The only user-restricted join of `get_trade_insights`: CLOSED trades of
the given user under the filters, with their results (blocks 2 and 4). -/
def userClosedJoin (s : Store) (u : String) (fs : List (String × String)) :
    List (Trade × ResultRow) :=
  joinWhere s (fun t => t.status == Status.CLOSED && t.userId == u && matchesFilters t fs)

/-- Aggregates of the win-rate block (main.py lines 327-349).  When no row
matches, the source's else branch sets every figure, including the two
averages, literally to the number 0. -/
structure WinPerf where
  totalClosed : Nat
  wins : Nat
  losses : Nat
  totalPl : ℚ
  avgWin : Option ℚ
  avgLoss : Option ℚ
  winRate : ℚ
deriving DecidableEq, Repr

/-- Win-rate block computation. -/
def winPerf (rows : List (Trade × ResultRow)) : WinPerf :=
  if rows.length = 0 then ⟨0, 0, 0, 0, some 0, some 0, 0⟩
  else
    let wins := (rows.filter (fun x => x.2.result == Outcome.WIN)).length
    let losses := (rows.filter (fun x => x.2.result == Outcome.LOSS)).length
    let totalPl := (rows.map (fun x => x.2.profitLoss)).sum
    let avgWin := sqlAvg ((rows.filter (fun x => x.2.result == Outcome.WIN)).map
      (fun x => x.2.profitLoss))
    let avgLoss := sqlAvg ((rows.filter (fun x => x.2.result == Outcome.LOSS)).map
      (fun x => x.2.profitLoss))
    ⟨rows.length, wins, losses, totalPl, avgWin, avgLoss,
     if rows.length > 0 then (wins : ℚ) / rows.length * 100 else 0⟩

/-- Profit factor (main.py line 523): guarded by the truthiness of
`avg_loss` only, so `avg_win = None` with a non-zero `avg_loss` makes
Python evaluate `abs(None / avg_loss)` and raise TypeError. -/
def profitFactor (avgWin avgLoss : Option ℚ) : Except SqlError (Option ℚ) :=
  match avgLoss with
  | none => .ok none
  | some l =>
    if l = 0 then .ok none
    else
      match avgWin with
      | none => .error .typeError
      | some w => .ok (some (round2 |w / l|))

/-- Per-side aggregates of the BUY/SELL comparison (main.py lines 351-378);
a side with no joined row keeps the all-zero default dict. -/
structure SideStats where
  total : Nat
  wins : Nat
  winRate : ℚ
  totalPl : ℚ
deriving DecidableEq, Repr, Inhabited

/-- Group row of the side comparison for one side. -/
def sideStats (rows : List (Trade × ResultRow)) (side : TradeType) : SideStats :=
  let g := rows.filter (fun x => x.1.tradeType == side)
  if g.isEmpty then ⟨0, 0, 0, 0⟩
  else
    let wins := (g.filter (fun x => x.2.result == Outcome.WIN)).length
    ⟨g.length, wins,
     if g.length > 0 then (wins : ℚ) / g.length * 100 else 0,
     (g.map (fun x => x.2.profitLoss)).sum⟩

/-- Average lot size over the WIN rows, 0 when absent (the source's
`lot_impact[0] if lot_impact and lot_impact[0] else 0`; an average of
exactly 0 also falls back to 0, which is the same value). -/
def avgLotWinsOf (rows : List (Trade × ResultRow)) : ℚ :=
  (sqlAvg ((rows.filter (fun x => x.2.result == Outcome.WIN)).map
    (fun x => x.1.lotSize))).getD 0

/-- Average lot size over the LOSS rows, 0 when absent. -/
def avgLotLossesOf (rows : List (Trade × ResultRow)) : ℚ :=
  (sqlAvg ((rows.filter (fun x => x.2.result == Outcome.LOSS)).map
    (fun x => x.1.lotSize))).getD 0

/-- One `GROUP BY` output row of the ranking queries. -/
structure GroupAgg (κ : Type) where
  key : κ
  total : Nat
  wins : Nat
  totalPl : ℚ
deriving DecidableEq, Repr

/-- The sort key `SUM(CASE WHEN WIN ...) * 1.0 / COUNT(*)` of the ORDER BY
clauses. -/
def winRateOfGroup (g : GroupAgg κ) : ℚ := (g.wins : ℚ) / g.total

/-- The ORDER BY comparison of the ranking queries: win rate descending,
ties broken by total profit/loss descending. -/
def rankLE (a b : GroupAgg κ) : Bool :=
  decide (winRateOfGroup b < winRateOfGroup a) ||
  (decide (winRateOfGroup a = winRateOfGroup b) && decide (b.totalPl ≤ a.totalPl))

/-- Distinct keys in first-appearance order. -/
def keysOf [DecidableEq κ] (l : List κ) : List κ :=
  l.foldl (fun acc k => if k ∈ acc then acc else acc ++ [k]) []

/-- `GROUP BY` aggregation of the joined rows under a key function. -/
def groupAggs [DecidableEq κ] (rows : List (Trade × ResultRow)) (keyOf : Trade → κ) :
    List (GroupAgg κ) :=
  (keysOf (rows.map (fun x => keyOf x.1))).map (fun k =>
    let g := rows.filter (fun x => decide (keyOf x.1 = k))
    { key := k, total := g.length,
      wins := (g.filter (fun x => x.2.result == Outcome.WIN)).length,
      totalPl := (g.map (fun x => x.2.profitLoss)).sum })

/-- Insertion step of the sort; SQL leaves the order of fully tied rows
unspecified, this embedding fixes the stable one. -/
def insertLe (le : α → α → Bool) (a : α) : List α → List α
  | [] => [a]
  | b :: l => if le a b then a :: b :: l else b :: insertLe le a l

/-- Insertion sort by a boolean comparison. -/
def sortByLe (le : α → α → Bool) : List α → List α
  | [] => []
  | a :: l => insertLe le a (sortByLe le l)

/-- Displayed per-group dict of the ranking loops (main.py lines 417-426,
449-458, 498-508): counts verbatim, win rate and profit/loss rounded. -/
structure GroupStat (κ : Type) where
  key : κ
  totalTrades : Nat
  wins : Nat
  winRate : ℚ
  totalPl : ℚ
deriving DecidableEq, Repr, Inhabited

/-- Rendering of one group row. -/
def displayStat (g : GroupAgg κ) : GroupStat κ :=
  ⟨g.key, g.total, g.wins,
   round2 (if g.total > 0 then (g.wins : ℚ) / g.total * 100 else 0),
   round2 g.totalPl⟩

/-- Rows of the timeframe ranking (main.py lines 398-413): CLOSED trades of
all users with a timeframe set, under every filter except a timeframe
filter. -/
def tfJoinRows (s : Store) (fs : List (String × String)) : List (Trade × ResultRow) :=
  joinWhere s (fun t => t.status == Status.CLOSED && t.timeframe.isSome &&
    matchesFilters t (fs.filter (fun p => p.1 != ("timeframe"))))

/-- Sorted timeframe ranking. -/
def tfRanking (s : Store) (fs : List (String × String)) : List (GroupAgg String) :=
  sortByLe rankLE (groupAggs (tfJoinRows s fs) (fun t => t.timeframe.getD ("")))

/-- Rows of the strategy ranking (main.py lines 430-444): strategy set and
non-empty, under every filter except a strategy filter. -/
def stratJoinRows (s : Store) (fs : List (String × String)) : List (Trade × ResultRow) :=
  joinWhere s (fun t => t.status == Status.CLOSED && t.strategy.isSome &&
    t.strategy.getD ("") != ("") &&
    matchesFilters t (fs.filter (fun p => p.1 != ("strategy"))))

/-- Sorted strategy ranking. -/
def stratRanking (s : Store) (fs : List (String × String)) : List (GroupAgg String) :=
  sortByLe rankLE (groupAggs (stratJoinRows s fs) (fun t => t.strategy.getD ("")))

/-- Rows of the combined ranking (main.py lines 478-494): timeframe set,
strategy set and non-empty, under every filter except timeframe/strategy. -/
def comboJoinRows (s : Store) (fs : List (String × String)) : List (Trade × ResultRow) :=
  joinWhere s (fun t => t.status == Status.CLOSED && t.timeframe.isSome &&
    t.strategy.isSome && t.strategy.getD ("") != ("") &&
    matchesFilters t (fs.filter (fun p => p.1 != ("timeframe") && p.1 != ("strategy"))))

/-- Sorted combined ranking, LIMIT 5. -/
def comboRanking (s : Store) (fs : List (String × String)) :
    List (GroupAgg (String × String)) :=
  (sortByLe rankLE (groupAggs (comboJoinRows s fs)
    (fun t => (t.timeframe.getD (""), t.strategy.getD (""))))).take 5

/-- `REPLACE(x, '1:', '')` of the risk:reward analysis, scanning left to
right over the stored string. -/
def removeMark : List Char → List Char
  | '1' :: ':' :: rest => removeMark rest
  | c :: rest => c :: removeMark rest
  | [] => []

/-- Numeric value of a digit list. -/
def digitsToNat (ds : List Char) : Nat :=
  ds.foldl (fun acc c => acc * 10 + (c.toNat - 48)) 0

/-- SQLite `CAST(x AS REAL)`: parse the longest numeric prefix, 0 when the
string starts with no number.  Decimal forms only; exponent notation, which
the server never writes into `risk_reward_ratio`, is not modelled. -/
def castReal (s : String) : ℚ :=
  let go : List Char → ℚ := fun cs =>
    let intDigits := cs.takeWhile (fun c => c.isDigit)
    let rest := cs.dropWhile (fun c => c.isDigit)
    let intPart : ℚ := (digitsToNat intDigits : ℚ)
    let fracPart : ℚ :=
      match rest with
      | '.' :: fcs =>
        let fds := fcs.takeWhile (fun c => c.isDigit)
        (digitsToNat fds : ℚ) / ((10 : ℚ) ^ fds.length)
      | _ => 0
    intPart + fracPart
  match s.toList with
  | '-' :: cs => -(go cs)
  | '+' :: cs => go cs
  | cs => go cs

/-- The parsed ratio value used by the risk:reward analysis. -/
def parseRR (s : String) : ℚ := castReal (String.mk (removeMark s.toList))

/-- Truthiness filter applied to the two average-ratio outputs (main.py
lines 475-476): NULL and an average of exactly 0 both become `None`. -/
def truthyNum : Option ℚ → Option ℚ
  | none => none
  | some v => if v = 0 then none else some v

/-- The full analytics summary (the returned dict, flattened). -/
structure Insights where
  totalTrades : Nat
  openTrades : Option Nat
  closedTrades : Option Nat
  totalProfitLoss : ℚ
  winRate : ℚ
  wins : Nat
  losses : Nat
  averageProfitPerWin : ℚ
  averageLossPerLoss : ℚ
  profitFactor : Option ℚ
  bestSide : String
  buyStats : SideStats
  sellStats : SideStats
  avgLotWins : ℚ
  avgLotLosses : ℚ
  lotDifference : ℚ
  bestTimeframe : Option String
  timeframeStats : List (GroupStat String)
  bestStrategy : Option String
  strategyStats : List (GroupStat String)
  avgRrWin : Option ℚ
  avgRrLoss : Option ℚ
  bestCombos : List (GroupStat (String × String))
deriving DecidableEq, Repr, Inhabited

/-- `get_trade_insights` (main.py lines 265-550).  Blocks 2 and 4 are the
only user-restricted ones; their statements carry `1 + |filters|`
placeholders but the source binds `[user_id] + [p for p in params if
p != user_id]`, so a filter value equal to the user id desynchronises the
binding and sqlite3 raises.  The profit factor is computed while building
the returned dict, after all queries. -/
def getTradeInsights (s : Store) (userId : String) (f : Filters) :
    Except SqlError Insights := do
  let fs := buildFilters f
  let params := filterParams fs
  let counts := countsBlock (s.trades.filter (fun t => matchesFilters t fs))
  let userRows ← execQ (1 + fs.length) (userId :: params.filter (fun p => p != userId))
    (userClosedJoin s userId fs)
  let wp := winPerf userRows
  let sideRows := joinWhere s (fun t => t.status == Status.CLOSED && matchesFilters t fs)
  let buy := sideStats sideRows .BUY
  let sell := sideStats sideRows .SELL
  let best := if buy.winRate > sell.winRate then ("BUY")
    else if sell.winRate > buy.winRate then ("SELL") else ("TIE")
  let lotRows ← execQ (1 + fs.length) (userId :: params.filter (fun p => p != userId))
    (userClosedJoin s userId fs)
  let lotWins := avgLotWinsOf lotRows
  let lotLosses := avgLotLossesOf lotRows
  let rrRows := joinWhere s (fun t => t.status == Status.CLOSED && t.riskReward.isSome &&
    matchesFilters t fs)
  let rrW := truthyNum (sqlAvg ((rrRows.filter (fun x => x.2.result == Outcome.WIN)).map
    (fun x => parseRR (x.1.riskReward.getD ("")))))
  let rrL := truthyNum (sqlAvg ((rrRows.filter (fun x => x.2.result == Outcome.LOSS)).map
    (fun x => parseRR (x.1.riskReward.getD ("")))))
  let pf ← profitFactor wp.avgWin wp.avgLoss
  let out : Insights :=
    { totalTrades := counts.totalTrades, openTrades := counts.openTrades,
      closedTrades := counts.closedTrades,
      totalProfitLoss := round2 wp.totalPl, winRate := round2 wp.winRate,
      wins := wp.wins, losses := wp.losses,
      averageProfitPerWin := round2 (wp.avgWin.getD 0),
      averageLossPerLoss := round2 (wp.avgLoss.getD 0),
      profitFactor := pf, bestSide := best, buyStats := buy, sellStats := sell,
      avgLotWins := round2 lotWins, avgLotLosses := round2 lotLosses,
      lotDifference := round2 (lotWins - lotLosses),
      bestTimeframe := ((tfRanking s fs).head?).map (fun g => g.key),
      timeframeStats := (tfRanking s fs).map displayStat,
      bestStrategy := ((stratRanking s fs).head?).map (fun g => g.key),
      strategyStats := (stratRanking s fs).map displayStat,
      avgRrWin := rrW.map round2, avgRrLoss := rrL.map round2,
      bestCombos := (comboRanking s fs).map displayStat }
  return out

/-! ## Embedding of `check_risk_alerts` (main.py lines 553-840)

Timestamps are rationals measured in seconds, so the source's ISO-string
parsing always succeeds in the embedding and the bare `except: pass`
handlers around `datetime.fromisoformat` never fire.  The message and
details dict of each alert are display text fully determined by the fields
kept here and are elided. -/

/-- Row of the recent-closed-trades query (main.py lines 581-595); the
LEFT JOIN makes the three result columns nullable. -/
structure RecentRow where
  id : Nat
  entryPrice : ℚ
  takeProfit : Option ℚ
  stopLoss : Option ℚ
  lotSize : ℚ
  balance : ℚ
  tradeType : TradeType
  createdAt : ℚ
  riskReward : Option String
  result : Option Outcome
  profitLoss : Option ℚ
  resultAt : Option ℚ
deriving DecidableEq, Repr

/-- Row of the open-trades query (main.py lines 598-607). -/
structure OpenRow where
  id : Nat
  entryPrice : ℚ
  takeProfit : Option ℚ
  stopLoss : Option ℚ
  lotSize : ℚ
  balance : ℚ
  tradeType : TradeType
  createdAt : ℚ
  riskReward : Option String
deriving DecidableEq, Repr

/-- LEFT JOIN expansion of one closed trade against its result rows. -/
def leftJoinRow (s : Store) (t : Trade) : List RecentRow :=
  match s.results.filter (fun r => r.tradeId == t.id) with
  | [] => [⟨t.id, t.entryPrice, t.takeProfit, t.stopLoss, t.lotSize, t.balance,
      t.tradeType, t.createdAt, t.riskReward, none, none, none⟩]
  | rs => rs.map (fun r => ⟨t.id, t.entryPrice, t.takeProfit, t.stopLoss, t.lotSize,
      t.balance, t.tradeType, t.createdAt, t.riskReward,
      some r.result, some r.profitLoss, some r.closedAt⟩)

/-- Rows of the recent-closed-trades query: the user's CLOSED trades newest
first, LEFT JOINed with results, LIMITed. -/
def recentClosedRows (s : Store) (u : String) (limit : Nat) : List RecentRow :=
  ((sortByLe (fun a b : Trade => decide (b.createdAt ≤ a.createdAt))
      (s.trades.filter (fun t => t.status == Status.CLOSED && t.userId == u))).flatMap
    (leftJoinRow s)).take limit

/-- Rows the open-trades query would produce if its parameter were bound
(its SQL filters on `status = OPEN AND user_id = ?`, newest first). -/
def openRowsOf (s : Store) (u : String) : List OpenRow :=
  (sortByLe (fun a b : Trade => decide (b.createdAt ≤ a.createdAt))
      (s.trades.filter (fun t => t.status == Status.OPEN && t.userId == u))).map
    (fun t => ⟨t.id, t.entryPrice, t.takeProfit, t.stopLoss, t.lotSize, t.balance,
      t.tradeType, t.createdAt, t.riskReward⟩)

/-- An emitted alert: its kind and severity. -/
structure Alert where
  alertType : String
  riskLevel : String
deriving DecidableEq, Repr

/-- The populated report dict (main.py lines 832-840). -/
structure AlertReport where
  alerts : List Alert
  totalAlerts : Nat
  criticalAlerts : Nat
  highAlerts : Nat
  mediumAlerts : Nat
  lowAlerts : Nat
deriving DecidableEq, Repr

/-- Result shape of `check_risk_alerts`: the short empty report of main.py
lines 609-614 (alerts `[]`, an informational message, total 0 and no
per-severity counts) or the full report. -/
inductive RiskOutput
  | emptyReport
  | full (r : AlertReport)
deriving DecidableEq, Repr

/-- Rule 1 state: length of the leading LOSS run. -/
def countLeadingLosses : List RecentRow → Nat
  | [] => 0
  | r :: rest =>
    if r.result == some Outcome.LOSS then countLeadingLosses rest + 1 else 0

/-- Rule 1, consecutive losses (main.py lines 616-631), evaluated on the
newest `recent_trades_count` rows. -/
def rule1 (recentTaken : List RecentRow) (thresh : Nat) : List Alert :=
  let cl := countLeadingLosses recentTaken
  if cl ≥ thresh then
    [⟨("CONSECUTIVE_LOSSES"), if cl ≥ 5 then ("CRITICAL") else ("HIGH")⟩]
  else []

/-- Rule 2, revenge trading (main.py lines 633-655): walk adjacent pairs,
emit on the first newer trade opened within one hour of an older LOSS's
result timestamp; a missing result timestamp is skipped by the source's
bare `except`. -/
def revengeScan : List RecentRow → List Alert
  | curr :: prev :: rest =>
    if prev.result == some Outcome.LOSS then
      match prev.resultAt with
      | some ts =>
        if (curr.createdAt - ts) / 3600 < 1 then [⟨("REVENGE_TRADING"), ("HIGH")⟩]
        else revengeScan (prev :: rest)
      | none => revengeScan (prev :: rest)
    else revengeScan (prev :: rest)
  | _ => []

/-- Rule 3, overconfidence (main.py lines 657-668): at least three WINs in
the newest five and the newest winning lot more than 20% above the oldest
winning lot of that window. -/
def rule3 (recent : List RecentRow) : List Alert :=
  if recent.length ≥ 3 then
    let wins := (recent.take 5).filter (fun r => r.result == some Outcome.WIN)
    if wins.length ≥ 3 then
      let lots := wins.map (fun w => w.lotSize)
      if lots.length ≥ 2 then
        if lots.headD 0 > lots.getLastD 0 * ((12 : ℚ) / 10) then
          [⟨("OVERCONFIDENCE"), ("MEDIUM")⟩]
        else []
      else []
    else []
  else []

/-- Rule 4, overtrading (main.py lines 670-685).  The source's negative
indexing for `max_trades_per_hour = 0` (and the IndexError it can raise on
an empty list) is not modelled: the call fails earlier regardless, see C1. -/
def rule4 (recent : List RecentRow) (maxTph : Nat) : List Alert :=
  if recent.length ≥ maxTph then
    match recent.head?, recent[maxTph - 1]? with
    | some newest, some oldest =>
      if (newest.createdAt - oldest.createdAt) / 3600 ≤ 1 then
        [⟨("OVERTRADING"), ("HIGH")⟩]
      else []
    | _, _ => []
  else []

/-- Candidate row shared by rules 5, 8 and 9: the source concatenates the
five newest closed rows and three newest open rows, reading only columns
the two row shapes share. -/
structure CandRow where
  id : Nat
  entryPrice : ℚ
  stopLoss : Option ℚ
  lotSize : ℚ
  balance : ℚ
  tradeType : TradeType
  riskReward : Option String
deriving DecidableEq, Repr

/-- Candidate view of a closed row. -/
def candOfRecent (r : RecentRow) : CandRow :=
  ⟨r.id, r.entryPrice, r.stopLoss, r.lotSize, r.balance, r.tradeType, r.riskReward⟩

/-- Candidate view of an open row. -/
def candOfOpen (o : OpenRow) : CandRow :=
  ⟨o.id, o.entryPrice, o.stopLoss, o.lotSize, o.balance, o.tradeType, o.riskReward⟩

/-- The candidate set `recent_trades[:5] + open_trades[:3]`. -/
def candidates (recent : List RecentRow) (opens : List OpenRow) : List CandRow :=
  (recent.take 5).map candOfRecent ++ (opens.take 3).map candOfOpen

/-- Rule 5, risk per trade (main.py lines 687-713): the first candidate
whose stop-distance risk exceeds the per-trade limit emits one alert and
stops the scan. -/
def rule5 (cands : List CandRow) (maxRisk : ℚ) : List Alert :=
  match cands with
  | [] => []
  | c :: rest =>
    if truthyQ c.balance && truthyQ c.lotSize then
      if truthyOpt c.stopLoss && truthyQ c.entryPrice then
        let rd := match c.tradeType with
          | .BUY => |c.entryPrice - c.stopLoss.getD 0|
          | .SELL => |c.stopLoss.getD 0 - c.entryPrice|
        let riskAmount := rd * (c.lotSize * 100)
        let riskPercent := if c.balance > 0 then riskAmount / c.balance * 100 else 0
        if riskPercent > maxRisk then
          [⟨("HIGH_RISK_PER_TRADE"), if riskPercent > 5 then ("CRITICAL") else ("HIGH")⟩]
        else rule5 rest maxRisk
      else rule5 rest maxRisk
    else rule5 rest maxRisk

/-- Rule 6, drawdown (main.py lines 715-730) over the truthy balances of
the closed rows. -/
def rule6 (recent : List RecentRow) (ddThresh : ℚ) : List Alert :=
  if recent.length ≥ 3 then
    let balances := (recent.filter (fun r => truthyQ r.balance)).map (fun r => r.balance)
    if balances.length ≥ 2 then
      let highest := match balances with
        | [] => 0
        | h :: tl => tl.foldl max h
      let current := balances.headD 0
      let dd := if highest > 0 then (highest - current) / highest * 100 else 0
      if dd ≥ ddThresh then
        [⟨("DRAWDOWN"), if dd > 20 then ("CRITICAL") else ("HIGH")⟩]
      else []
    else []
  else []

/-- Rule 7, emotional state (main.py lines 732-743): at least four LOSSes
among the newest five closed rows. -/
def rule7 (recent : List RecentRow) : List Alert :=
  if recent.length ≥ 5 then
    if ((recent.take 5).filter (fun r => r.result == some Outcome.LOSS)).length ≥ 4 then
      [⟨("EMOTIONAL"), ("HIGH")⟩]
    else []
  else []

/-- Python's `float(x)`: the whole string must be one decimal number (the
exotic accepted spellings such as exponents or `inf`, which the server
never stores in `risk_reward_ratio`, are not modelled); `none` mirrors the
ValueError swallowed by the source's bare `except`. -/
def parseFloat? (s : String) : Option ℚ :=
  let core : List Char → Option ℚ := fun cs =>
    let intDigits := cs.takeWhile (fun c => c.isDigit)
    let rest := cs.dropWhile (fun c => c.isDigit)
    match rest with
    | [] => if intDigits.isEmpty then none else some ((digitsToNat intDigits : ℚ))
    | '.' :: fcs =>
      let fds := fcs.takeWhile (fun c => c.isDigit)
      let tail := fcs.dropWhile (fun c => c.isDigit)
      if tail.isEmpty ∧ ¬(intDigits.isEmpty ∧ fds.isEmpty) then
        some ((digitsToNat intDigits : ℚ) + (digitsToNat fds : ℚ) / ((10 : ℚ) ^ fds.length))
      else none
    | _ => none
  match s.toList with
  | '-' :: cs => (core cs).map (fun q => -q)
  | '+' :: cs => core cs
  | cs => core cs

/-- Rule 8, poor risk:reward (main.py lines 745-763): candidates whose
stored ratio parses below 1.0; unparsable ratios are skipped. -/
def rule8 (cands : List CandRow) : List Alert :=
  let poor := cands.filter (fun c =>
    match c.riskReward with
    | some rr =>
      if rr != ("") then
        match parseFloat? (String.mk (removeMark rr.toList)) with
        | some v => decide (v < 1)
        | none => false
      else false
    | none => false)
  if poor.isEmpty then [] else [⟨("POOR_RISK_REWARD"), ("MEDIUM")⟩]

/-- Rule 9, missing stop loss (main.py lines 765-777): candidates with a
falsy stop loss (absent or 0). -/
def rule9 (cands : List CandRow) : List Alert :=
  if (cands.filter (fun c => !truthyOpt c.stopLoss)).isEmpty then []
  else [⟨("MISSING_STOP_LOSS"), ("CRITICAL")⟩]

/-- Rule 10, account risk percentage (main.py lines 779-807) over all open
rows, against the balance of the newest open trade. -/
def rule10 (opens : List OpenRow) : List Alert :=
  match opens with
  | [] => []
  | o0 :: _ =>
    let curBal := if truthyQ o0.balance then o0.balance else 0
    let totalRisk := (opens.map (fun o =>
      if truthyOpt o.stopLoss && truthyQ o.entryPrice && truthyQ o.lotSize then
        (match o.tradeType with
          | .BUY => |o.entryPrice - o.stopLoss.getD 0|
          | .SELL => |o.stopLoss.getD 0 - o.entryPrice|) * (o.lotSize * 100)
      else 0)).sum
    if curBal > 0 then
      let pct := totalRisk / curBal * 100
      if pct > 10 then
        [⟨("ACCOUNT_RISK_PERCENTAGE"), if pct > 20 then ("CRITICAL") else ("HIGH")⟩]
      else []
    else []

/-- Severity rank of main.py line 829. -/
def riskOrderOf (lv : String) : Nat :=
  if lv == "CRITICAL" then 4
  else if lv == "HIGH" then 3
  else if lv == "MEDIUM" then 2
  else if lv == "LOW" then 1
  else 0

/-- `check_risk_alerts` (main.py lines 553-840).  The first query binds its
two placeholders; the open-trades query's SQL carries one placeholder for
`user_id` but the source passes no parameter tuple at all, so sqlite3
raises ProgrammingError on every call before any rule runs.  On the
(unreachable) success path the alerts are persisted in detection order and
the report is sorted by severity. -/
def checkRiskAlerts (s : Store) (userId : String) (recentTradesCount : Nat)
    (consecutiveLossThreshold : Nat) (maxTradesPerHour : Nat)
    (maxRiskPerTradePercent : ℚ) (drawdownThresholdPercent : ℚ) :
    Except SqlError (RiskOutput × Store) := do
  let recent ← execQ 2 [userId, toString (recentTradesCount * 2)]
    (recentClosedRows s userId (recentTradesCount * 2))
  let opens ← execQ 1 [] (openRowsOf s userId)
  if recent.isEmpty && opens.isEmpty then
    return (RiskOutput.emptyReport, s)
  else
    let alerts :=
      rule1 (recent.take recentTradesCount) consecutiveLossThreshold ++
      revengeScan recent ++
      rule3 recent ++
      rule4 recent maxTradesPerHour ++
      rule5 (candidates recent opens) maxRiskPerTradePercent ++
      rule6 recent drawdownThresholdPercent ++
      rule7 recent ++
      rule8 (candidates recent opens) ++
      rule9 (candidates recent opens) ++
      rule10 opens
    let newAlerts := alerts.map
      (fun a => (⟨userId, a.alertType, a.riskLevel, false⟩ : AlertRow))
    let s2 := { s with alerts := s.alerts ++ newAlerts }
    let sorted := sortByLe
      (fun a b => decide (riskOrderOf b.riskLevel ≤ riskOrderOf a.riskLevel)) alerts
    return (RiskOutput.full
      { alerts := sorted, totalAlerts := sorted.length,
        criticalAlerts := (sorted.filter (fun a => a.riskLevel == "CRITICAL")).length,
        highAlerts := (sorted.filter (fun a => a.riskLevel == "HIGH")).length,
        mediumAlerts := (sorted.filter (fun a => a.riskLevel == "MEDIUM")).length,
        lowAlerts := (sorted.filter (fun a => a.riskLevel == "LOW")).length }, s2)

/-- One call of either write operation of the server, for reachability. -/
inductive Op
  | save (now : ℚ) (userId : String) (entry : ℚ) (tp sl : Option ℚ) (lot bal : ℚ)
      (side : TradeType) (pair : String) (timeframe tradeStyle strategy notes : Option String)
  | close (now : ℚ) (userId : String) (tradeId : Nat) (outcome : Outcome) (notes : Option String)

/-- Store effect of one operation (the committed final state). -/
def applyOp (s : Store) : Op → Store
  | .save now u e tp sl lot bal side pair tf st str n =>
    (saveTrade s now u e tp sl lot bal side pair tf st str n).2
  | .close now u tid oc n => (logTradeResult s now u tid oc n).2.1

/-- State reached by running a sequence of operations on the fresh store. -/
def runOps (ops : List Op) : Store := ops.foldl applyOp store0

/-- The store invariant the write operations maintain: trade ids are unique
and below the id counter, every Result references an existing CLOSED Trade,
and every Trade has at most one Result. -/
def Inv (s : Store) : Prop :=
  s.trades.Pairwise (fun a b => a.id ≠ b.id) ∧
  (∀ t ∈ s.trades, t.id < s.nextTradeId) ∧
  (∀ r ∈ s.results, ∃ t ∈ s.trades, t.id = r.tradeId ∧ t.status = Status.CLOSED) ∧
  (∀ tid, (resultsFor s tid).length ≤ 1)

/-- Store reached by saving one BUY trade at entry 2000 with both targets
set; used as concrete input for several claims. -/
def oneTradeStore : Store :=
  (saveTrade store0 0 ("u") 2000 (some 2010) (some 1995) (3 / 100) 500 .BUY ("XAU/USD")
    none none none none).2

/-- The trade row `oneTradeStore` holds. -/
def oneTrade : Trade :=
  { id := 1, userId := "u", entryPrice := 2000, takeProfit := some 2010,
    stopLoss := some 1995, lotSize := 3 / 100, balance := 500, tradeType := .BUY,
    currencyPair := "XAU/USD", timeframe := none, tradeStyle := none, strategy := none,
    riskReward := some "1:2.00", notes := none, createdAt := 0, status := .OPEN }

/-- Store holding a BUY trade whose take-profit 1990 lies below its entry
2000, which the source accepts unchecked. -/
def badTpStore : Store :=
  (saveTrade store0 0 ("u") 2000 (some 1990) none 1 500 .BUY ("XAU/USD")
    none none none none).2

/-- Store holding an OPEN trade whose take-profit was supplied as exactly 0. -/
def zeroTpStore : Store :=
  (saveTrade store0 0 ("u") 2000 (some 0) none 1 500 .BUY ("XAU/USD")
    none none none none).2

/-- The trade row `zeroTpStore` holds. -/
def zeroTpTrade : Trade :=
  { id := 1, userId := "u", entryPrice := 2000, takeProfit := some 0, stopLoss := none,
    lotSize := 1, balance := 500, tradeType := .BUY, currencyPair := "XAU/USD",
    timeframe := none, tradeStyle := none, strategy := none, riskReward := none,
    notes := none, createdAt := 0, status := .OPEN }

/-- Store holding an OPEN trade whose stop-loss was supplied as exactly 0. -/
def zeroSlStore : Store :=
  (saveTrade store0 0 ("u") 2000 none (some 0) 1 500 .SELL ("XAU/USD")
    none none none none).2

/-- The trade row `zeroSlStore` holds. -/
def zeroSlTrade : Trade :=
  { id := 1, userId := "u", entryPrice := 2000, takeProfit := none, stopLoss := some 0,
    lotSize := 1, balance := 500, tradeType := .SELL, currencyPair := "XAU/USD",
    timeframe := none, tradeStyle := none, strategy := none, riskReward := none,
    notes := none, createdAt := 0, status := .OPEN }

/-- Store after the first `conn.commit()` of a successful close: the Result
row is persisted but the Trade rows are untouched. -/
def halfCommitStore (s : Store) (row : ResultRow) : Store :=
  { s with results := s.results ++ [row], nextResultId := s.nextResultId + 1 }

/-- Store after the second `conn.commit()` of a successful close. -/
def commitStore (s : Store) (row : ResultRow) (tid : Nat) : Store :=
  { halfCommitStore s row with trades := markClosed s.trades tid }

/-- Result row inserted by a successful close. -/
def closeRow (s : Store) (now : ℚ) (u : String) (tid : Nat) (oc : Outcome)
    (pl : ℚ) (n : Option String) : ResultRow :=
  { id := s.nextResultId, userId := u, tradeId := tid, result := oc,
    profitLoss := pl, notes := n, closedAt := now }

/-- Side-adjusted WIN price move of main.py lines 202-205. -/
def winMove (t : Trade) : ℚ :=
  match t.tradeType with
  | .BUY => t.takeProfit.getD 0 - t.entryPrice
  | .SELL => t.entryPrice - t.takeProfit.getD 0

/-- Side-adjusted LOSS price move of main.py lines 216-219. -/
def lossMove (t : Trade) : ℚ :=
  match t.tradeType with
  | .BUY => t.entryPrice - t.stopLoss.getD 0
  | .SELL => t.stopLoss.getD 0 - t.entryPrice

/-- The trades owned by one user. -/
def userTrades (s : Store) (u : String) : List Trade :=
  s.trades.filter (fun t => t.userId == u)

/-- The result rows attached to the user's trades. -/
def resultsOnUserTrades (s : Store) (u : String) : List ResultRow :=
  s.results.filter (fun r => (userTrades s u).any (fun t => t.id == r.tradeId))

/-- Store with a single OPEN trade of user `u`. -/
def c2Store1 : Store :=
  (saveTrade store0 0 ("u") 2000 none none 1 500 .BUY ("XAU/USD")
    none none none none).2

/-- `c2Store1` plus one OPEN trade owned by a different user. -/
def c2Store2 : Store :=
  (saveTrade c2Store1 1 ("other") 2000 none none 1 500 .BUY ("XAU/USD")
    none none none none).2

/-- Store whose only trade of user `u` is closed with a LOSS result and no
WIN result (entry 2000, stop-loss 1995, lot 1). -/
def c8Store : Store :=
  (logTradeResult
    ((saveTrade store0 0 ("u") 2000 none (some 1995) 1 500 .BUY ("XAU/USD")
      none none none none).2)
    1 ("u") 1 Outcome.LOSS none).2.1

/-- The insights record of a concrete successful call, used by the C9
witness. -/
def c9Rec : Insights :=
  ((getTradeInsights c2Store1 ("u") noFilters).toOption).getD default

/-- Whether an insights call succeeded. -/
def insightsOk : Except SqlError Insights → Bool
  | .ok _ => true
  | .error _ => false

/-- Reported win rate of a successful insights call (1 on error, which the
accompanying `insightsOk` conjunct rules out). -/
def okWinRate : Except SqlError Insights → ℚ
  | .ok r => r.winRate
  | .error _ => 1

/-- Reported total profit/loss of a successful insights call. -/
def okTotalPl : Except SqlError Insights → ℚ
  | .ok r => r.totalProfitLoss
  | .error _ => 1

/-- Reported WIN count of a successful insights call. -/
def okWins : Except SqlError Insights → Nat
  | .ok r => r.wins
  | .error _ => 1

/-- Reported LOSS count of a successful insights call. -/
def okLosses : Except SqlError Insights → Nat
  | .ok r => r.losses
  | .error _ => 1

section InvariantLemmas

lemma logTradeResult_notFound_eq {s : Store} {tid : Nat} {u : String}
    (hf : findTrade s tid u = none) (now : ℚ) (oc : Outcome) (n : Option String) :
    logTradeResult s now u tid oc n = (.notFound tid, s, []) := by
  unfold logTradeResult
  rw [hf]

lemma logTradeResult_closed_eq {s : Store} {tid : Nat} {u : String} {t : Trade}
    (hf : findTrade s tid u = some t) (hcl : t.status = Status.CLOSED)
    (now : ℚ) (oc : Outcome) (n : Option String) :
    logTradeResult s now u tid oc n = (.alreadyClosed tid, s, []) := by
  unfold logTradeResult
  rw [hf]
  show (if t.status = Status.CLOSED then _ else _) = _
  rw [if_pos hcl]

lemma logTradeResult_noTp_eq {s : Store} {tid : Nat} {u : String} {t : Trade}
    (hf : findTrade s tid u = some t) (hcl : ¬t.status = Status.CLOSED)
    (htp : ¬truthyOpt t.takeProfit = true) (now : ℚ) (n : Option String) :
    logTradeResult s now u tid .WIN n = (.noTakeProfit tid, s, []) := by
  unfold logTradeResult
  rw [hf]
  show (if t.status = Status.CLOSED then _ else _) = _
  rw [if_neg hcl]
  show (if truthyOpt t.takeProfit = true then _ else _) = _
  rw [if_neg htp]

lemma logTradeResult_noSl_eq {s : Store} {tid : Nat} {u : String} {t : Trade}
    (hf : findTrade s tid u = some t) (hcl : ¬t.status = Status.CLOSED)
    (hsl : ¬truthyOpt t.stopLoss = true) (now : ℚ) (n : Option String) :
    logTradeResult s now u tid .LOSS n = (.noStopLoss tid, s, []) := by
  unfold logTradeResult
  rw [hf]
  show (if t.status = Status.CLOSED then _ else _) = _
  rw [if_neg hcl]
  show (if truthyOpt t.stopLoss = true then _ else _) = _
  rw [if_neg hsl]

lemma logTradeResult_win_eq {s : Store} {tid : Nat} {u : String} {t : Trade}
    (hf : findTrade s tid u = some t) (hcl : ¬t.status = Status.CLOSED)
    (htp : truthyOpt t.takeProfit = true) (now : ℚ) (n : Option String) :
    logTradeResult s now u tid .WIN n =
      (.ok { resultId := s.nextResultId, tradeId := tid, result := .WIN,
             profitLoss := winMove t * (t.lotSize * 100), previousBalance := t.balance,
             newBalance := t.balance + winMove t * (t.lotSize * 100),
             entryPrice := t.entryPrice, exitPrice := t.takeProfit.getD 0,
             lotSize := t.lotSize, status := Status.CLOSED, notes := n },
       commitStore s (closeRow s now u tid .WIN (winMove t * (t.lotSize * 100)) n) tid,
       [halfCommitStore s (closeRow s now u tid .WIN (winMove t * (t.lotSize * 100)) n),
        commitStore s (closeRow s now u tid .WIN (winMove t * (t.lotSize * 100)) n) tid]) := by
  unfold logTradeResult
  rw [hf]
  show (if t.status = Status.CLOSED then _ else _) = _
  rw [if_neg hcl]
  show (if truthyOpt t.takeProfit = true then _ else _) = _
  rw [if_pos htp]
  rfl

lemma logTradeResult_loss_eq {s : Store} {tid : Nat} {u : String} {t : Trade}
    (hf : findTrade s tid u = some t) (hcl : ¬t.status = Status.CLOSED)
    (hsl : truthyOpt t.stopLoss = true) (now : ℚ) (n : Option String) :
    logTradeResult s now u tid .LOSS n =
      (.ok { resultId := s.nextResultId, tradeId := tid, result := .LOSS,
             profitLoss := -|lossMove t * (t.lotSize * 100)|, previousBalance := t.balance,
             newBalance := t.balance + -|lossMove t * (t.lotSize * 100)|,
             entryPrice := t.entryPrice, exitPrice := t.stopLoss.getD 0,
             lotSize := t.lotSize, status := Status.CLOSED, notes := n },
       commitStore s (closeRow s now u tid .LOSS (-|lossMove t * (t.lotSize * 100)|) n) tid,
       [halfCommitStore s (closeRow s now u tid .LOSS (-|lossMove t * (t.lotSize * 100)|) n),
        commitStore s (closeRow s now u tid .LOSS (-|lossMove t * (t.lotSize * 100)|) n) tid]) := by
  unfold logTradeResult
  rw [hf]
  show (if t.status = Status.CLOSED then _ else _) = _
  rw [if_neg hcl]
  show (if truthyOpt t.stopLoss = true then _ else _) = _
  rw [if_pos hsl]
  rfl

lemma ensureUser_trades (s : Store) (u : String) : (ensureUser s u).trades = s.trades := by
  unfold ensureUser; split <;> rfl

lemma ensureUser_results (s : Store) (u : String) : (ensureUser s u).results = s.results := by
  unfold ensureUser; split <;> rfl

lemma ensureUser_nextTradeId (s : Store) (u : String) :
    (ensureUser s u).nextTradeId = s.nextTradeId := by
  unfold ensureUser; split <;> rfl

lemma inv_ensureUser {s : Store} (h : Inv s) (u : String) : Inv (ensureUser s u) := by
  unfold Inv resultsFor at h ⊢
  rw [ensureUser_trades, ensureUser_results, ensureUser_nextTradeId]
  exact h

lemma inv_addTrade {s : Store} (h : Inv s) (t : Trade) (ht : t.id = s.nextTradeId) :
    Inv { s with trades := s.trades ++ [t], nextTradeId := t.id + 1 } := by
  obtain ⟨h1, h2, h3, h4⟩ := h
  refine ⟨?_, ?_, ?_, h4⟩
  · rw [List.pairwise_append]
    refine ⟨h1, List.pairwise_singleton _ _, ?_⟩
    intro a ha b hb
    rw [List.mem_singleton] at hb
    subst hb
    have := h2 a ha
    omega
  · intro x hx
    rcases List.mem_append.mp hx with hx | hx
    · have := h2 x hx; simp only; omega
    · rw [List.mem_singleton] at hx; subst hx; simp only; omega
  · intro r hr
    obtain ⟨t', ht', hid, hst⟩ := h3 r hr
    exact ⟨t', List.mem_append_left _ ht', hid, hst⟩

lemma markClosed_id_eq (tid : Nat) (t : Trade) :
    ((fun t => if t.id == tid then { t with status := Status.CLOSED } else t) t).id = t.id := by
  by_cases h : t.id == tid <;> simp [h]

lemma markClosed_userId_eq (tid : Nat) (t : Trade) :
    ((fun t => if t.id == tid then { t with status := Status.CLOSED } else t) t).userId
      = t.userId := by
  by_cases h : t.id == tid <;> simp [h]

lemma pairwise_id_unique {l : List Trade}
    (h : l.Pairwise (fun a b => a.id ≠ b.id)) {a b : Trade}
    (ha : a ∈ l) (hb : b ∈ l) (hid : a.id = b.id) : a = b := by
  by_contra hne
  have hsym : Symmetric (fun a b : Trade => a.id ≠ b.id) :=
    fun x y hxy he => hxy he.symm
  exact (h.forall hsym ha hb hne) hid

lemma find?_markClosed (l : List Trade) (tid : Nat) (u : String) :
    (markClosed l tid).find? (fun t => t.id == tid && t.userId == u)
      = (l.find? (fun t => t.id == tid && t.userId == u)).map
          (fun t => if t.id == tid then { t with status := Status.CLOSED } else t) := by
  induction l with
  | nil => rfl
  | cons a l ih =>
    unfold markClosed at ih ⊢
    rw [List.map_cons]
    have hfa : ((if (a.id == tid) = true then { a with status := Status.CLOSED } else a).id == tid
        && (if (a.id == tid) = true then { a with status := Status.CLOSED } else a).userId == u)
        = (a.id == tid && a.userId == u) := by
      by_cases h : (a.id == tid) = true <;> simp [h]
    simp only [List.find?_cons, hfa]
    cases hpa : (a.id == tid && a.userId == u) with
    | false => simpa [hpa] using ih
    | true => simp [hpa]

lemma findTrade_mem {s : Store} {tid : Nat} {u : String} {t : Trade}
    (h : findTrade s tid u = some t) : t ∈ s.trades ∧ t.id = tid ∧ t.userId = u := by
  unfold findTrade at h
  have hm := List.mem_of_find?_eq_some h
  have hp := List.find?_some h
  simp only [Bool.and_eq_true, beq_iff_eq] at hp
  exact ⟨hm, hp.1, hp.2⟩

lemma resultsFor_open_trade {s : Store} (h : Inv s) {t : Trade}
    (hmem : t ∈ s.trades) (hst : t.status ≠ Status.CLOSED) : resultsFor s t.id = [] := by
  obtain ⟨h1, _, h3, _⟩ := h
  by_contra hne
  obtain ⟨r, hr⟩ := List.exists_mem_of_ne_nil _ hne
  have hr2 := List.mem_filter.mp hr
  obtain ⟨t', ht', hid, hcl⟩ := h3 r hr2.1
  have : t'.id = t.id := by
    have := hr2.2
    simp only [beq_iff_eq] at this
    omega
  have := pairwise_id_unique h1 ht' hmem this
  subst this
  exact hst hcl

lemma resultsFor_commitStore (s : Store) (row : ResultRow) (tid tid' : Nat) :
    resultsFor (commitStore s row tid) tid'
      = resultsFor s tid' ++ if row.tradeId == tid' then [row] else [] := by
  unfold resultsFor commitStore halfCommitStore
  simp only [List.filter_append]
  congr 1
  by_cases h : (row.tradeId == tid') = true <;> simp [h]

lemma inv_commitStore {s : Store} (h : Inv s) {t : Trade} {tid : Nat} {u : String}
    (ht : findTrade s tid u = some t) (hst : t.status ≠ Status.CLOSED)
    (row : ResultRow) (hrow : row.tradeId = tid) : Inv (commitStore s row tid) := by
  obtain ⟨hmem, hid, _⟩ := findTrade_mem ht
  obtain ⟨h1, h2, h3, h4⟩ := h
  refine ⟨?_, ?_, ?_, ?_⟩
  · exact (List.Pairwise.map _ (fun a b hab => by
      simpa only [markClosed_id_eq] using hab) h1 :
        (markClosed s.trades tid).Pairwise (fun a b => a.id ≠ b.id))
  · intro x hx
    obtain ⟨y, hy, hxy⟩ := List.mem_map.mp hx
    have := h2 y hy
    have hxid : x.id = y.id := by rw [← hxy]; exact markClosed_id_eq tid y
    simp only [commitStore, halfCommitStore]
    omega
  · intro r hr
    rcases List.mem_append.mp hr with hr | hr
    · obtain ⟨t', ht', hid', hcl⟩ := h3 r hr
      refine ⟨(fun t => if t.id == tid then { t with status := Status.CLOSED } else t) t',
        List.mem_map_of_mem _ ht', ?_, ?_⟩
      · rw [markClosed_id_eq]; exact hid'
      · by_cases hc : t'.id == tid <;> simp [hc, hcl]
    · rw [List.mem_singleton] at hr
      subst hr
      refine ⟨(fun t => if t.id == tid then { t with status := Status.CLOSED } else t) t,
        List.mem_map_of_mem _ hmem, ?_, ?_⟩
      · rw [markClosed_id_eq]; omega
      · have : t.id == tid := by simp [hid]
        simp [this]
  · intro tid'
    rw [resultsFor_commitStore]
    by_cases hc : tid' = tid
    · subst hc
      have hempty : resultsFor s tid' = [] := by
        rw [← hid]
        exact resultsFor_open_trade ⟨h1, h2, h3, h4⟩ hmem hst
      simp [hempty, hrow]
    · have hne : (row.tradeId == tid') = false := by
        simp only [beq_eq_false_iff_ne, ne_eq, hrow]
        omega
      simpa [hne] using h4 tid'

/-- Case analysis for `log_trade_result`: either the call is one of the four
no-write payloads and the store is untouched, or it is a successful close and
the final store is `commitStore` of a fresh result row for the trade. -/
lemma logTradeResult_cases (s : Store) (now : ℚ) (u : String) (tid : Nat)
    (oc : Outcome) (n : Option String) :
    ((logTradeResult s now u tid oc n).1.isOk = false ∧
      (logTradeResult s now u tid oc n).2.1 = s ∧
      (logTradeResult s now u tid oc n).2.2 = []) ∨
    (∃ t pl, findTrade s tid u = some t ∧ t.status ≠ Status.CLOSED ∧
      logTradeResult s now u tid oc n =
        (.ok { resultId := s.nextResultId, tradeId := tid, result := oc, profitLoss := pl,
               previousBalance := t.balance, newBalance := t.balance + pl,
               entryPrice := t.entryPrice,
               exitPrice := (if oc = .WIN then t.takeProfit else t.stopLoss).getD 0,
               lotSize := t.lotSize, status := Status.CLOSED, notes := n },
         commitStore s (closeRow s now u tid oc pl n) tid,
         [halfCommitStore s (closeRow s now u tid oc pl n),
          commitStore s (closeRow s now u tid oc pl n) tid])) := by
  cases hf : findTrade s tid u with
  | none =>
    left
    rw [logTradeResult_notFound_eq hf]
    exact ⟨rfl, rfl, rfl⟩
  | some t =>
    by_cases hcl : t.status = Status.CLOSED
    · left
      rw [logTradeResult_closed_eq hf hcl]
      exact ⟨rfl, rfl, rfl⟩
    · cases oc with
      | WIN =>
        by_cases htp : truthyOpt t.takeProfit = true
        · right
          refine ⟨t, winMove t * (t.lotSize * 100), rfl, hcl, ?_⟩
          rw [logTradeResult_win_eq hf hcl htp]
          rfl
        · left
          rw [logTradeResult_noTp_eq hf hcl htp]
          exact ⟨rfl, rfl, rfl⟩
      | LOSS =>
        by_cases hsl : truthyOpt t.stopLoss = true
        · right
          refine ⟨t, -|lossMove t * (t.lotSize * 100)|, rfl, hcl, ?_⟩
          rw [logTradeResult_loss_eq hf hcl hsl]
          rfl
        · left
          rw [logTradeResult_noSl_eq hf hcl hsl]
          exact ⟨rfl, rfl, rfl⟩

lemma inv_logTradeResult {s : Store} (h : Inv s) (now : ℚ) (u : String) (tid : Nat)
    (oc : Outcome) (n : Option String) : Inv (logTradeResult s now u tid oc n).2.1 := by
  rcases logTradeResult_cases s now u tid oc n with ⟨-, hs, -⟩ | ⟨t, pl, hf, hst, hcall⟩
  · rw [hs]; exact h
  · rw [hcall]
    exact inv_commitStore h hf hst _ rfl

lemma inv_saveTrade {s : Store} (h : Inv s) (now : ℚ) (u : String) (e : ℚ)
    (tp sl : Option ℚ) (lot bal : ℚ) (side : TradeType) (pair : String)
    (tf st str n : Option String) :
    Inv (saveTrade s now u e tp sl lot bal side pair tf st str n).2 := by
  unfold saveTrade
  by_cases hl : lot ≤ 0
  · rw [if_pos hl]; exact h
  · rw [if_neg hl]
    exact inv_addTrade (inv_ensureUser h u) _ rfl

lemma inv_store0 : Inv store0 := by
  refine ⟨List.Pairwise.nil, ?_, ?_, ?_⟩ <;> simp [store0, resultsFor]

lemma inv_runOps (ops : List Op) : Inv (runOps ops) := by
  suffices hgen : ∀ s, Inv s → Inv (ops.foldl applyOp s) from hgen store0 inv_store0
  induction ops with
  | nil => exact fun s hs => hs
  | cons op ops ih =>
    intro s hs
    apply ih
    cases op with
    | save now u e tp sl lot bal side pair tf st str n => exact inv_saveTrade hs _ _ _ _ _ _ _ _ _ _ _ _ _
    | close now u tid oc n => exact inv_logTradeResult hs _ _ _ _ _

/-- Field-level description of a successful `save_trade` payload. -/
lemma saveTrade_ok_fields {s : Store} {now : ℚ} {u : String} {entry : ℚ}
    {tp sl : Option ℚ} {lot bal : ℚ} {side : TradeType} {pair : String}
    {tf st str n : Option String} (hlot : ¬lot ≤ 0) :
    (saveTrade s now u entry tp sl lot bal side pair tf st str n).1 =
      .ok { tradeId := (ensureUser s u).nextTradeId, status := .OPEN,
            entryPrice := entry, takeProfit := tp, stopLoss := sl, lotSize := lot,
            balance := bal, tradeType := side, currencyPair := pair, timeframe := tf,
            tradeStyle := st, strategy := str,
            riskReward := computeRR entry tp sl side,
            potentialProfit := if (truthyOpt tp && truthyQ entry) = true then
              some (|tp.getD 0 - entry| * (lot * 100)) else none,
            potentialLoss := if (truthyOpt sl && truthyQ entry) = true then
              some (|entry - sl.getD 0| * (lot * 100)) else none,
            notes := n } := by
  unfold saveTrade
  rw [if_neg hlot]

lemma findTrade_commitStore {s : Store} {tid : Nat} {u : String} {t : Trade}
    (hf : findTrade s tid u = some t) (row : ResultRow) :
    findTrade (commitStore s row tid) tid u
      = some (if (t.id == tid) = true then { t with status := Status.CLOSED } else t) := by
  unfold findTrade commitStore
  show (markClosed s.trades tid).find? _ = _
  rw [find?_markClosed]
  unfold findTrade at hf
  rw [hf]
  rfl

end InvariantLemmas

/-! ## Claim theorems for the trade lifecycle -/

/-- C7: a non-positive lot size makes `save_trade` return the structured
validation-error payload and leaves the store untouched — no Trade row and
no User row is created. -/
theorem c7_lot_size_validation (s : Store) (now : ℚ) (u : String) (entry : ℚ)
    (tp sl : Option ℚ) (lot bal : ℚ) (side : TradeType) (pair : String)
    (tf st str n : Option String) (hlot : lot ≤ 0) :
    saveTrade s now u entry tp sl lot bal side pair tf st str n
      = (.invalidLotSize lot, s) := by
  unfold saveTrade
  rw [if_pos hlot]

/-- Witness for C7 at lot size 0 on the fresh store. -/
theorem c7_lot_size_validation_witness :
    (0 : ℚ) ≤ 0 ∧
    saveTrade store0 0 ("u") 2000 none none 0 500 .BUY ("XAU/USD") none none none none
      = (.invalidLotSize 0, store0) :=
  ⟨le_refl 0, c7_lot_size_validation store0 0 ("u") 2000 none none 0 500 .BUY ("XAU/USD")
    none none none none (le_refl 0)⟩

/-- C3 (refuting atomicity): on a successful close the source commits twice;
mapping each committed state of the trace to (number of Results for the
trade, the trade's status) shows the first committed state already holds the
Result while the Trade is still OPEN. -/
theorem c3_close_not_atomic :
    ((logTradeResult oneTradeStore 1 ("u") 1 Outcome.WIN none).2.2.map
        (fun st => ((resultsFor st 1).length, (findTrade st 1 ("u")).map Trade.status)))
      = [(1, some Status.OPEN), (1, some Status.CLOSED)] := by
  decide

/-- C4 (counterexample to "always non-negative"): a WIN close of a BUY trade
whose stored take-profit 1990 is below its entry 2000 succeeds and records a
strictly negative profit. -/
theorem c4_counterexample :
    (logTradeResult badTpStore 1 ("u") 1 Outcome.WIN none).1.isOk = true ∧
    (logTradeResult badTpStore 1 ("u") 1 Outcome.WIN none).1.plOf = -1000 := by
  decide

/-- C4 (amended): for a successful close, the WIN profit/loss equals the
side-adjusted move times lot size × 100 (non-negative only when that move is
non-negative and the lot size is non-negative), the LOSS profit/loss equals
minus the absolute value of the adjusted move times lot size × 100 and is
always non-positive, and the returned new balance is the trade's balance
snapshot plus the recorded profit/loss. -/
theorem c4_profit_loss_amended (s : Store) (now : ℚ) (u : String) (tid : Nat)
    (n : Option String) (t : Trade) (hf : findTrade s tid u = some t)
    (hopen : t.status ≠ Status.CLOSED) :
    (truthyOpt t.takeProfit = true →
      (logTradeResult s now u tid .WIN n).1.plOf = winMove t * (t.lotSize * 100) ∧
      (logTradeResult s now u tid .WIN n).1.newBalanceOf =
        t.balance + winMove t * (t.lotSize * 100) ∧
      (0 ≤ winMove t → 0 ≤ t.lotSize → 0 ≤ (logTradeResult s now u tid .WIN n).1.plOf)) ∧
    (truthyOpt t.stopLoss = true →
      (logTradeResult s now u tid .LOSS n).1.plOf = -|lossMove t * (t.lotSize * 100)| ∧
      (logTradeResult s now u tid .LOSS n).1.plOf ≤ 0 ∧
      (logTradeResult s now u tid .LOSS n).1.newBalanceOf =
        t.balance + (logTradeResult s now u tid .LOSS n).1.plOf) := by
  constructor
  · intro htp
    rw [logTradeResult_win_eq hf hopen htp]
    refine ⟨rfl, rfl, fun hmv hlot => ?_⟩
    show (0 : ℚ) ≤ winMove t * (t.lotSize * 100)
    exact mul_nonneg hmv (mul_nonneg hlot (by norm_num))
  · intro hsl
    rw [logTradeResult_loss_eq hf hopen hsl]
    refine ⟨rfl, ?_, rfl⟩
    show -|lossMove t * (t.lotSize * 100)| ≤ 0
    exact neg_nonpos_of_nonneg (abs_nonneg _)

/-- Witness for C4 (amended) on the concrete saved trade: WIN records +30,
new balance 530; LOSS records −15. -/
theorem c4_profit_loss_amended_witness :
    (logTradeResult oneTradeStore 1 ("u") 1 Outcome.WIN none).1.plOf = 30 ∧
    (logTradeResult oneTradeStore 1 ("u") 1 Outcome.WIN none).1.newBalanceOf = 530 ∧
    (logTradeResult oneTradeStore 1 ("u") 1 Outcome.LOSS none).1.plOf = -15 := by
  have h := c4_profit_loss_amended oneTradeStore 1 ("u") 1 none oneTrade
    (by decide) (by decide)
  obtain ⟨hw, hl⟩ := h
  obtain ⟨hw1, hw2, -⟩ := hw (by decide)
  obtain ⟨hl1, -, -⟩ := hl (by decide)
  refine ⟨?_, ?_, ?_⟩
  · rw [hw1]; decide
  · rw [hw2]; decide
  · rw [hl1]; decide

/-- C5: starting from any reachable store, after a successful close every
trade still has at most one Result, the closed trade has exactly one, and a
second `log_trade_result` on the same trade returns the already-closed
warning payload while writing nothing (the store is returned unchanged and
the commit trace is empty). -/
theorem c5_result_uniqueness (ops : List Op) (s : Store) (hs : s = runOps ops)
    (now now' : ℚ) (u : String) (tid : Nat) (oc oc' : Outcome) (n n' : Option String)
    (hok : (logTradeResult s now u tid oc n).1.isOk = true) :
    (∀ tid', (resultsFor (logTradeResult s now u tid oc n).2.1 tid').length ≤ 1) ∧
    (resultsFor (logTradeResult s now u tid oc n).2.1 tid).length = 1 ∧
    logTradeResult (logTradeResult s now u tid oc n).2.1 now' u tid oc' n'
      = (.alreadyClosed tid, (logTradeResult s now u tid oc n).2.1, []) := by
  subst hs
  have hinv := inv_runOps ops
  rcases logTradeResult_cases (runOps ops) now u tid oc n with ⟨hok2, -, -⟩ |
    ⟨t, pl, hf, hst, hcall⟩
  · rw [hok2] at hok; cases hok
  · obtain ⟨hmem, hid, -⟩ := findTrade_mem hf
    have hrow : (closeRow (runOps ops) now u tid oc pl n).tradeId = tid := rfl
    have hinv2 := inv_commitStore hinv hf hst _ hrow
    have hempty : resultsFor (runOps ops) tid = [] := by
      rw [← hid]
      exact resultsFor_open_trade hinv hmem hst
    have hbeq : (t.id == tid) = true := by simp [hid]
    have hfind2 := findTrade_commitStore hf (closeRow (runOps ops) now u tid oc pl n)
    rw [if_pos hbeq] at hfind2
    rw [hcall]
    refine ⟨fun tid' => (hinv2.2.2.2 tid'), ?_, ?_⟩
    · show (resultsFor (commitStore _ _ _) tid).length = 1
      rw [resultsFor_commitStore, hempty, hrow]
      simp
    · exact logTradeResult_closed_eq hfind2 rfl now' oc' n'

/-- Witness for C5: save one trade, close it with WIN, then close again. -/
theorem c5_result_uniqueness_witness :
    (resultsFor (logTradeResult oneTradeStore 1 ("u") 1 Outcome.WIN none).2.1 1).length = 1 ∧
    logTradeResult (logTradeResult oneTradeStore 1 ("u") 1 Outcome.WIN none).2.1 2 ("u") 1
        Outcome.LOSS none
      = (.alreadyClosed 1, (logTradeResult oneTradeStore 1 ("u") 1 Outcome.WIN none).2.1, []) :=
  (c5_result_uniqueness
    [Op.save 0 ("u") 2000 (some 2010) (some 1995) (3 / 100) 500 .BUY ("XAU/USD")
      none none none none]
    oneTradeStore rfl 1 2 ("u") 1 .WIN .LOSS none none (by decide)).2

/-- C6 (counterexample): with take-profit and stop-loss both present but the
entry price supplied as 0, the source stores no ratio although the claimed
formula produces the ratio string 1:2.00. -/
theorem c6_counterexample :
    (saveTrade store0 0 ("u") 0 (some 10) (some 5) 1 500 .BUY ("XAU/USD")
        none none none none).1.rrOf = none ∧
    formatRR (|(10 : ℚ) - 0| / |(0 : ℚ) - 5|) = "1:2.00" := by
  constructor
  · decide
  · decide

/-- C6 (amended): when take-profit, stop-loss and the entry price are all
present and non-zero (the source treats 0 as absent), the stored ratio is
the side-adjusted absolute profit distance over risk distance, formatted to
two decimals, and is absent when the risk distance is 0. -/
theorem c6_risk_reward_amended (s : Store) (now : ℚ) (u : String) (entry : ℚ)
    (tp sl : ℚ) (lot bal : ℚ) (side : TradeType) (pair : String)
    (tf st str n : Option String) (hlot : ¬lot ≤ 0)
    (htp : tp ≠ 0) (hsl : sl ≠ 0) (hentry : entry ≠ 0) :
    (saveTrade s now u entry (some tp) (some sl) lot bal side pair tf st str n).1.rrOf =
      (if (match side with | .BUY => |entry - sl| | .SELL => |sl - entry|) > 0 then
        some (formatRR ((match side with | .BUY => |tp - entry| | .SELL => |entry - tp|) /
          (match side with | .BUY => |entry - sl| | .SELL => |sl - entry|)))
      else none) := by
  unfold saveTrade
  rw [if_neg hlot]
  show computeRR entry (some tp) (some sl) side = _
  unfold computeRR
  have hcond : (truthyOpt (some tp) && truthyOpt (some sl) && truthyQ entry) = true := by
    simp [truthyOpt, truthyQ, htp, hsl, hentry]
  rw [hcond]
  rfl

/-- Witness for C6 (amended): the spec's round-trip example entry 2000,
take-profit 2010, stop-loss 1995, BUY stores the ratio 1:2.00. -/
theorem c6_risk_reward_amended_witness :
    (saveTrade store0 0 ("u") 2000 (some 2010) (some 1995) 1 500 .BUY ("XAU/USD")
        none none none none).1.rrOf = some ("1:2.00") := by
  have h := c6_risk_reward_amended store0 0 ("u") 2000 2010 1995 1 500 .BUY ("XAU/USD")
    none none none none (by norm_num) (by norm_num) (by norm_num) (by norm_num)
  rw [h]
  decide

/-- C10: a supplied price of exactly 0 is treated as absent: a zero
take-profit, stop-loss or entry price suppresses the ratio and the
corresponding potential profit/loss figures in `save_trade`, and a close
hitting a stored zero take-profit (WIN) or zero stop-loss (LOSS) returns
the missing-target-price validation error without writing anything. -/
theorem c10_zero_prices_treated_absent :
    (∀ s now u entry sl lot bal side pair tf st str n, ¬lot ≤ 0 →
      (saveTrade s now u entry (some 0) sl lot bal side pair tf st str n).1.rrOf = none ∧
      (saveTrade s now u entry (some 0) sl lot bal side pair tf st str n).1.potProfitOf
        = none) ∧
    (∀ s now u entry tp lot bal side pair tf st str n, ¬lot ≤ 0 →
      (saveTrade s now u entry tp (some 0) lot bal side pair tf st str n).1.rrOf = none ∧
      (saveTrade s now u entry tp (some 0) lot bal side pair tf st str n).1.potLossOf
        = none) ∧
    (∀ s now u tp sl lot bal side pair tf st str n, ¬lot ≤ 0 →
      (saveTrade s now u 0 tp sl lot bal side pair tf st str n).1.rrOf = none ∧
      (saveTrade s now u 0 tp sl lot bal side pair tf st str n).1.potProfitOf = none ∧
      (saveTrade s now u 0 tp sl lot bal side pair tf st str n).1.potLossOf = none) ∧
    (∀ s now u tid n t, findTrade s tid u = some t → t.status ≠ Status.CLOSED →
      t.takeProfit = some 0 →
      logTradeResult s now u tid .WIN n = (.noTakeProfit tid, s, [])) ∧
    (∀ s now u tid n t, findTrade s tid u = some t → t.status ≠ Status.CLOSED →
      t.stopLoss = some 0 →
      logTradeResult s now u tid .LOSS n = (.noStopLoss tid, s, [])) := by
  refine ⟨?_, ?_, ?_, ?_, ?_⟩
  · intro s now u entry sl lot bal side pair tf st str n hlot
    rw [saveTrade_ok_fields hlot]
    constructor
    · show computeRR entry (some 0) sl side = none
      unfold computeRR
      simp [truthyOpt]
    · show (if (truthyOpt (some 0) && truthyQ entry) = true then
          some (|(some (0 : ℚ)).getD 0 - entry| * (lot * 100)) else none) = none
      simp [truthyOpt]
  · intro s now u entry tp lot bal side pair tf st str n hlot
    rw [saveTrade_ok_fields hlot]
    constructor
    · show computeRR entry tp (some 0) side = none
      unfold computeRR
      simp [truthyOpt]
    · show (if (truthyOpt (some 0) && truthyQ entry) = true then
          some (|entry - (some (0 : ℚ)).getD 0| * (lot * 100)) else none) = none
      simp [truthyOpt]
  · intro s now u tp sl lot bal side pair tf st str n hlot
    rw [saveTrade_ok_fields hlot]
    refine ⟨?_, ?_, ?_⟩
    · show computeRR 0 tp sl side = none
      unfold computeRR
      simp [truthyQ]
    · show (if (truthyOpt tp && truthyQ 0) = true then
          some (|tp.getD 0 - 0| * (lot * 100)) else none) = none
      simp [truthyQ]
    · show (if (truthyOpt sl && truthyQ 0) = true then
          some (|0 - sl.getD 0| * (lot * 100)) else none) = none
      simp [truthyQ]
  · intro s now u tid n t hf hop htp
    refine logTradeResult_noTp_eq hf hop ?_ now n
    rw [htp]
    decide
  · intro s now u tid n t hf hop hsl
    refine logTradeResult_noSl_eq hf hop ?_ now n
    rw [hsl]
    decide

/-! ## Lemmas on the sort and on `get_trade_insights` -/

section SortLemmas

variable {α : Type}

lemma chain'_insertLe (le : α → α → Bool)
    (htot : ∀ a b, le a b = true ∨ le b a = true) (a : α) :
    ∀ {l : List α}, l.Chain' (fun x y => le x y = true) →
      (insertLe le a l).Chain' (fun x y => le x y = true) := by
  intro l
  induction l with
  | nil => intro _; simp [insertLe]
  | cons b l ih =>
    intro hl
    unfold insertLe
    by_cases h : le a b = true
    · rw [if_pos h]
      exact hl.cons h
    · rw [if_neg h]
      have hba : le b a = true := (htot a b).resolve_left h
      have htail : l.Chain' (fun x y => le x y = true) := hl.tail
      have hins := ih htail
      rw [List.chain'_cons']
      refine ⟨?_, hins⟩
      intro y hy
      cases l with
      | nil =>
        simp [insertLe] at hy
        subst hy
        exact hba
      | cons c l2 =>
        unfold insertLe at hy
        by_cases hac : le a c = true
        · rw [if_pos hac] at hy
          simp at hy
          subst hy
          exact hba
        · rw [if_neg hac] at hy
          simp at hy
          subst hy
          exact (List.chain'_cons.mp hl).1

lemma chain'_sortByLe (le : α → α → Bool)
    (htot : ∀ a b, le a b = true ∨ le b a = true) (l : List α) :
    (sortByLe le l).Chain' (fun x y => le x y = true) := by
  induction l with
  | nil => simp [sortByLe]
  | cons a l ih => exact chain'_insertLe le htot a ih

lemma perm_insertLe (le : α → α → Bool) (a : α) (l : List α) :
    (insertLe le a l).Perm (a :: l) := by
  induction l with
  | nil => simp [insertLe]
  | cons b l ih =>
    unfold insertLe
    by_cases h : le a b = true
    · rw [if_pos h]
    · rw [if_neg h]
      exact (ih.cons b).trans (List.Perm.swap a b l)

lemma perm_sortByLe (le : α → α → Bool) (l : List α) : (sortByLe le l).Perm l := by
  induction l with
  | nil => exact List.Perm.refl []
  | cons a l ih =>
    exact (perm_insertLe le a (sortByLe le l)).trans (ih.cons a)

lemma rankLE_total {κ : Type} (a b : GroupAgg κ) :
    rankLE a b = true ∨ rankLE b a = true := by
  unfold rankLE
  rcases lt_trichotomy (winRateOfGroup a) (winRateOfGroup b) with h | h | h
  · right
    simp [h]
  · rcases le_total a.totalPl b.totalPl with hp | hp
    · right
      simp [h, hp]
    · left
      simp [h, hp]
  · left
    simp [h]

lemma keys_groupAggs {κ : Type} [DecidableEq κ] (rows : List (Trade × ResultRow))
    (keyOf : Trade → κ) :
    (groupAggs rows keyOf).map (fun g => g.key) = keysOf (rows.map (fun x => keyOf x.1)) := by
  unfold groupAggs
  rw [List.map_map]
  exact List.map_id _

end SortLemmas

section RestrictionLemmas

lemma flatMap_congr {α β : Type} {l : List α} {f g : α → List β}
    (h : ∀ a ∈ l, f a = g a) : l.flatMap f = l.flatMap g := by
  induction l with
  | nil => rfl
  | cons a l ih =>
    simp only [List.flatMap_cons]
    rw [h a (List.mem_cons_self a l), ih (fun b hb => h b (List.mem_cons_of_mem a hb))]

lemma filter_user_closed (s : Store) (u : String) (fs : List (String × String)) :
    s.trades.filter
        (fun t => t.status == Status.CLOSED && t.userId == u && matchesFilters t fs)
      = (userTrades s u).filter
          (fun t => t.status == Status.CLOSED && matchesFilters t fs) := by
  unfold userTrades
  rw [List.filter_filter]
  apply List.filter_congr
  intro t _
  cases h1 : (t.status == Status.CLOSED) <;> cases h2 : (t.userId == u) <;>
    cases h3 : matchesFilters t fs <;> simp [h1, h2, h3]

lemma results_restrict (s : Store) (u : String) {t : Trade} (ht : t ∈ userTrades s u) :
    s.results.filter (fun r => r.tradeId == t.id)
      = (resultsOnUserTrades s u).filter (fun r => r.tradeId == t.id) := by
  unfold resultsOnUserTrades
  rw [List.filter_filter]
  apply List.filter_congr
  intro r _
  by_cases h : (r.tradeId == t.id) = true
  · have hid : t.id = r.tradeId := (beq_iff_eq.mp h).symm
    have hany : (userTrades s u).any (fun tr => tr.id == r.tradeId) = true :=
      List.any_eq_true.mpr ⟨t, ht, by simp [hid]⟩
    simp [h, hany]
  · simp [h]

lemma userClosedJoin_restrict (s : Store) (u : String) (fs : List (String × String)) :
    userClosedJoin s u fs
      = ((userTrades s u).filter
          (fun t => t.status == Status.CLOSED && matchesFilters t fs)).flatMap
          (fun t => ((resultsOnUserTrades s u).filter (fun r => r.tradeId == t.id)).map
            (fun r => (t, r))) := by
  unfold userClosedJoin joinWhere
  rw [filter_user_closed]
  apply flatMap_congr
  intro t ht
  rw [results_restrict s u (List.mem_of_mem_filter ht)]

end RestrictionLemmas

section InsightsLemmas

lemma exbind_ok {ε α β : Type} (a : α) (f : α → Except ε β) :
    ((Except.ok a : Except ε α) >>= f) = f a := rfl

lemma exbind_err {ε α β : Type} (e : ε) (f : α → Except ε β) :
    ((Except.error e : Except ε α) >>= f) = .error e := rfl

lemma expure_eq {ε α : Type} (a : α) : (pure a : Except ε α) = .ok a := rfl

lemma execQ_ok {α : Type} {ph : Nat} {args : List String} (rows : α)
    (h : args.length = ph) : execQ ph args rows = .ok rows := by
  unfold execQ
  rw [if_pos h]

lemma userParams_len {u : String} {f : Filters}
    (hp : ∀ p ∈ filterParams (buildFilters f), p ≠ u) :
    (u :: (filterParams (buildFilters f)).filter (fun p => p != u)).length
      = 1 + (buildFilters f).length := by
  have hfp : (filterParams (buildFilters f)).filter (fun p => p != u)
      = filterParams (buildFilters f) := by
    apply List.filter_eq_self.mpr
    intro p hpmem
    simpa using hp p hpmem
  rw [hfp]
  unfold filterParams
  simp [Nat.add_comm]

/-- Inversion of a successful `get_trade_insights` call: every ranking field
of the result is the corresponding ranking of this file. -/
lemma getTradeInsights_ok_elim {s : Store} {u : String} {f : Filters} {r : Insights}
    (h : getTradeInsights s u f = .ok r) :
    r.timeframeStats = (tfRanking s (buildFilters f)).map displayStat ∧
    r.bestTimeframe = ((tfRanking s (buildFilters f)).head?).map (fun g => g.key) ∧
    r.strategyStats = (stratRanking s (buildFilters f)).map displayStat ∧
    r.bestStrategy = ((stratRanking s (buildFilters f)).head?).map (fun g => g.key) ∧
    r.bestCombos = (comboRanking s (buildFilters f)).map displayStat := by
  simp only [getTradeInsights] at h
  by_cases hlen : (u :: (filterParams (buildFilters f)).filter (fun p => p != u)).length
      = 1 + (buildFilters f).length
  · rw [execQ_ok _ hlen] at h
    simp only [exbind_ok] at h
    rcases hpf : profitFactor (winPerf (userClosedJoin s u (buildFilters f))).avgWin
        (winPerf (userClosedJoin s u (buildFilters f))).avgLoss with e | v
    · rw [hpf] at h
      simp only [exbind_err] at h
      exact Except.noConfusion h
    · rw [hpf] at h
      simp only [exbind_ok, expure_eq, Except.ok.injEq] at h
      subst h
      exact ⟨rfl, rfl, rfl, rfl, rfl⟩
  · rw [show execQ (1 + (buildFilters f).length)
        (u :: (filterParams (buildFilters f)).filter (fun p => p != u))
        (userClosedJoin s u (buildFilters f))
        = .error (.bindingMismatch (1 + (buildFilters f).length)
            (u :: (filterParams (buildFilters f)).filter (fun p => p != u)).length)
        from by unfold execQ; rw [if_neg hlen]] at h
    simp only [exbind_err] at h
    exact Except.noConfusion h

end InsightsLemmas

/-! ## Claim theorems on analytics and risk monitoring -/

/-- C1 (refuting structured returns): the open-trades statement of
`check_risk_alerts` carries one placeholder but the source binds no
parameters, so every call — in particular one for a user with no closed and
no open trades — stops with sqlite3's binding ProgrammingError instead of
returning the structured empty report. -/
theorem c1_every_call_raises (s : Store) (u : String) (rc clt mtph : Nat)
    (mr dd : ℚ) :
    checkRiskAlerts s u rc clt mtph mr dd = .error (.bindingMismatch 1 0) := rfl

/-- C2 (counterexample): two stores agreeing on every trade of user `u` and
on the results attached to them, differing only by one extra trade owned by
another user, give user `u` different insights (the trade counts come from
an unfiltered query). -/
theorem c2_counterexample :
    userTrades c2Store1 ("u") = userTrades c2Store2 ("u") ∧
    resultsOnUserTrades c2Store1 ("u") = resultsOnUserTrades c2Store2 ("u") ∧
    getTradeInsights c2Store1 ("u") noFilters ≠ getTradeInsights c2Store2 ("u") noFilters := by
  refine ⟨by decide, by decide, by decide⟩

/-- C2 (amended): only the win-rate block and the lot-size block are
partitioned by the caller-supplied user id — for two ledger states agreeing
on the user's trades and on the results attached to them, the rows those
two blocks read, and hence their aggregates, coincide. -/
theorem c2_partition_amended (s1 s2 : Store) (u : String)
    (fs : List (String × String))
    (hT : userTrades s1 u = userTrades s2 u)
    (hR : resultsOnUserTrades s1 u = resultsOnUserTrades s2 u) :
    userClosedJoin s1 u fs = userClosedJoin s2 u fs ∧
    winPerf (userClosedJoin s1 u fs) = winPerf (userClosedJoin s2 u fs) ∧
    avgLotWinsOf (userClosedJoin s1 u fs) = avgLotWinsOf (userClosedJoin s2 u fs) ∧
    avgLotLossesOf (userClosedJoin s1 u fs) = avgLotLossesOf (userClosedJoin s2 u fs) := by
  have hmain : userClosedJoin s1 u fs = userClosedJoin s2 u fs := by
    rw [userClosedJoin_restrict, userClosedJoin_restrict, hT, hR]
  exact ⟨hmain, by rw [hmain], by rw [hmain], by rw [hmain]⟩

/-- Witness for C2 (amended) on the concrete counterexample stores. -/
theorem c2_partition_amended_witness :
    winPerf (userClosedJoin c2Store1 ("u") []) = winPerf (userClosedJoin c2Store2 ("u") []) ∧
    avgLotWinsOf (userClosedJoin c2Store1 ("u") [])
      = avgLotWinsOf (userClosedJoin c2Store2 ("u") []) :=
  ⟨(c2_partition_amended c2Store1 c2Store2 ("u") [] (by decide) (by decide)).2.1,
   (c2_partition_amended c2Store1 c2Store2 ("u") [] (by decide) (by decide)).2.2.1⟩

/-- C8 (counterexample to "never raises"): a user whose only closed trade is
a LOSS has `avg_win = NULL` and a non-zero `avg_loss`, so the profit-factor
expression divides `None` by a float and the call raises TypeError instead
of degrading. -/
theorem c8_counterexample :
    getTradeInsights c8Store ("u") noFilters = .error .typeError := by
  decide

/-- C8 (amended): `get_trade_insights` never divides by zero, and for every
user with zero closed-and-resulted trades under the given filters the call
succeeds with win rate 0 and total profit/loss 0 — provided no filter value
equals the user id (such a call fails sqlite's binding check) and noting
that a user with LOSS results but no WIN results makes the profit-factor
computation raise instead (see the counterexample). -/
theorem c8_zero_data_amended (s : Store) (u : String) (f : Filters)
    (hp : ∀ p ∈ filterParams (buildFilters f), p ≠ u)
    (he : userClosedJoin s u (buildFilters f) = []) :
    insightsOk (getTradeInsights s u f) = true ∧
    okWinRate (getTradeInsights s u f) = 0 ∧
    okTotalPl (getTradeInsights s u f) = 0 ∧
    okWins (getTradeInsights s u f) = 0 ∧
    okLosses (getTradeInsights s u f) = 0 := by
  have hq := execQ_ok (userClosedJoin s u (buildFilters f)) (userParams_len hp)
  simp only [getTradeInsights]
  rw [hq]
  simp only [exbind_ok]
  rw [he]
  have hwp : winPerf [] = ⟨0, 0, 0, 0, some 0, some 0, 0⟩ := rfl
  rw [hwp]
  have hpf : profitFactor (some 0) (some 0) = .ok none := rfl
  simp only [hpf, exbind_ok, expure_eq]
  refine ⟨rfl, ?_, ?_, rfl, rfl⟩ <;>
    · show round2 0 = 0
      decide

/-- Witness for C8 (amended): the empty store with no filters. -/
theorem c8_zero_data_amended_witness :
    insightsOk (getTradeInsights store0 ("u") noFilters) = true ∧
    okWinRate (getTradeInsights store0 ("u") noFilters) = 0 ∧
    okTotalPl (getTradeInsights store0 ("u") noFilters) = 0 ∧
    okWins (getTradeInsights store0 ("u") noFilters) = 0 ∧
    okLosses (getTradeInsights store0 ("u") noFilters) = 0 :=
  c8_zero_data_amended store0 ("u") noFilters (by decide) (by decide)

/-- C9: in every successful insights call the timeframe, strategy and
combined rankings are the grouped closed-and-resulted rows of their
dimension, sorted descending by win rate with ties broken descending by
total profit/loss (an adjacent-pair chain under `rankLE`); the reported
best group is the head of the ranking; the group keys are exactly the
distinct dimension values of the eligible rows; and the combined ranking
keeps at most the top five pairs. -/
theorem c9_rankings (s : Store) (u : String) (f : Filters)
    (fs : List (String × String)) (hfs : fs = buildFilters f) (r : Insights)
    (h : getTradeInsights s u f = .ok r) :
    r.timeframeStats = (tfRanking s fs).map displayStat ∧
    r.bestTimeframe = ((tfRanking s fs).head?).map (fun g => g.key) ∧
    (tfRanking s fs).Chain' (fun a b => rankLE a b = true) ∧
    ((tfRanking s fs).map (fun g => g.key)).Perm
      (keysOf ((tfJoinRows s fs).map (fun x => x.1.timeframe.getD ("")))) ∧
    r.strategyStats = (stratRanking s fs).map displayStat ∧
    r.bestStrategy = ((stratRanking s fs).head?).map (fun g => g.key) ∧
    (stratRanking s fs).Chain' (fun a b => rankLE a b = true) ∧
    ((stratRanking s fs).map (fun g => g.key)).Perm
      (keysOf ((stratJoinRows s fs).map (fun x => x.1.strategy.getD ("")))) ∧
    r.bestCombos = (comboRanking s fs).map displayStat ∧
    (comboRanking s fs).Chain' (fun a b => rankLE a b = true) ∧
    r.bestCombos.length ≤ 5 := by
  subst hfs
  obtain ⟨h1, h2, h3, h4, h5⟩ := getTradeInsights_ok_elim h
  refine ⟨h1, h2, ?_, ?_, h3, h4, ?_, ?_, h5, ?_, ?_⟩
  · exact chain'_sortByLe rankLE rankLE_total _
  · have hperm := (perm_sortByLe rankLE (groupAggs (tfJoinRows s (buildFilters f))
      (fun t => t.timeframe.getD ("")))).map (fun g => g.key)
    rw [keys_groupAggs] at hperm
    exact hperm
  · exact chain'_sortByLe rankLE rankLE_total _
  · have hperm := (perm_sortByLe rankLE (groupAggs (stratJoinRows s (buildFilters f))
      (fun t => t.strategy.getD ("")))).map (fun g => g.key)
    rw [keys_groupAggs] at hperm
    exact hperm
  · exact (chain'_sortByLe rankLE rankLE_total _).take 5
  · rw [h5]
    unfold comboRanking
    simp [List.length_take]

/-- Witness for C9 on a concrete successful call. -/
theorem c9_rankings_witness :
    getTradeInsights c2Store1 ("u") noFilters = .ok c9Rec ∧
    c9Rec.bestCombos.length ≤ 5 :=
  ⟨by decide,
   (c9_rankings c2Store1 ("u") noFilters [] rfl c9Rec (by decide)).2.2.2.2.2.2.2.2.2.2⟩

/-- Witness for C10 on concrete calls with zero prices. -/
theorem c10_zero_prices_treated_absent_witness :
    ((saveTrade store0 0 ("u") 2000 (some 0) (some 1995) 1 500 .BUY ("XAU/USD")
        none none none none).1.rrOf = none ∧
      (saveTrade store0 0 ("u") 2000 (some 0) (some 1995) 1 500 .BUY ("XAU/USD")
        none none none none).1.potProfitOf = none) ∧
    ((saveTrade store0 0 ("u") 2000 (some 2010) (some 0) 1 500 .BUY ("XAU/USD")
        none none none none).1.rrOf = none ∧
      (saveTrade store0 0 ("u") 2000 (some 2010) (some 0) 1 500 .BUY ("XAU/USD")
        none none none none).1.potLossOf = none) ∧
    logTradeResult zeroTpStore 7 ("u") 1 Outcome.WIN none
      = (.noTakeProfit 1, zeroTpStore, []) ∧
    logTradeResult zeroSlStore 7 ("u") 1 Outcome.LOSS none
      = (.noStopLoss 1, zeroSlStore, []) := by
  obtain ⟨h1, h2, h3, h4, h5⟩ := c10_zero_prices_treated_absent
  refine ⟨?_, ?_, ?_, ?_⟩
  · exact h1 store0 0 ("u") 2000 (some 1995) 1 500 .BUY ("XAU/USD") none none none none
      (by norm_num)
  · exact h2 store0 0 ("u") 2000 (some 2010) 1 500 .BUY ("XAU/USD") none none none none
      (by norm_num)
  · exact h4 zeroTpStore 7 ("u") 1 none zeroTpTrade (by decide) (by decide) (by decide)
  · exact h5 zeroSlStore 7 ("u") 1 none zeroSlTrade (by decide) (by decide) (by decide)

end

end ForexAssistant
